import Mathlib

/-!
Verification development for the go-color library: a shallow embedding of the
color space conversion graph engine, the CSS gamut mapper, the interpolation
helper, and the textual color parser, together with theorems settling the
behavioural claims about them.

Modelling conventions:
- Go float64 coordinate values are modelled as exact rationals.  Coordinate
  gamut ranges may be infinite in the source (math.Inf), so range endpoints
  are modelled by the three-valued type ERat.
- Go pointer identity of color space nodes is modelled by a numeric tag field;
  distinct allocations carry distinct tags.
- The transcendental numeric kernels (cube root, square root, pow, sin, cos,
  atan2, hypot, pi) are not rational-valued; the source treats the per-space
  transfer functions as opaque pure functions.  The embedding is therefore
  parameterised by a Kernels record supplying these functions, and theorems
  quantify over it, so they hold in particular for the real-valued kernels.
- Go panics are modelled by Option results (none = panic).  The unbounded
  gamut mapping search loop additionally takes a fuel argument; none also
  results when fuel runs out, which models divergence.
-/

/-- Three coordinate values, as in the [3]float64 triples of the source. -/
abbrev Vec3 : Type := ℚ × ℚ × ℚ

/-- Row-major 3x3 matrix. -/
abbrev Mat3 : Type := Vec3 × Vec3 × Vec3

/-- Vector-times-matrix product, mirroring mulVecMat in the source. -/
def mulVecMat (vec : Vec3) (m : Mat3) : Vec3 :=
  (m.1.1 * vec.1 + m.1.2.1 * vec.2.1 + m.1.2.2 * vec.2.2,
   m.2.1.1 * vec.1 + m.2.1.2.1 * vec.2.1 + m.2.1.2.2 * vec.2.2,
   m.2.2.1 * vec.1 + m.2.2.2.1 * vec.2.1 + m.2.2.2.2 * vec.2.2)

/-- Matrix-times-matrix product, mirroring mulMatMat in the source. -/
def mulMatMat (m1 m2 : Mat3) : Mat3 :=
  ((m1.1.1 * m2.1.1 + m1.1.2.1 * m2.2.1.1 + m1.1.2.2 * m2.2.2.1,
    m1.1.1 * m2.1.2.1 + m1.1.2.1 * m2.2.1.2.1 + m1.1.2.2 * m2.2.2.2.1,
    m1.1.1 * m2.1.2.2 + m1.1.2.1 * m2.2.1.2.2 + m1.1.2.2 * m2.2.2.2.2),
   (m1.2.1.1 * m2.1.1 + m1.2.1.2.1 * m2.2.1.1 + m1.2.1.2.2 * m2.2.2.1,
    m1.2.1.1 * m2.1.2.1 + m1.2.1.2.1 * m2.2.1.2.1 + m1.2.1.2.2 * m2.2.2.2.1,
    m1.2.1.1 * m2.1.2.2 + m1.2.1.2.1 * m2.2.1.2.2 + m1.2.1.2.2 * m2.2.2.2.2),
   (m1.2.2.1 * m2.1.1 + m1.2.2.2.1 * m2.2.1.1 + m1.2.2.2.2 * m2.2.2.1,
    m1.2.2.1 * m2.1.2.1 + m1.2.2.2.1 * m2.2.1.2.1 + m1.2.2.2.2 * m2.2.2.2.1,
    m1.2.2.1 * m2.1.2.2 + m1.2.2.2.1 * m2.2.1.2.2 + m1.2.2.2.2 * m2.2.2.2.2))

/-- Linear interpolation, mirroring lerp in the source. -/
def lerp (x y a : ℚ) : ℚ :=
  x * (1 - a) + y * a

/-- Extended rational: a float64 range endpoint, which may be plus or minus
infinity in the source (math.Inf). -/
inductive ERat : Type where
  | ninf : ERat
  | fin : ℚ → ERat
  | pinf : ERat
deriving DecidableEq

/-- Subtract a rational from a range endpoint (infinite endpoints absorb). -/
def ERat.subQ : ERat → ℚ → ERat
  | ERat.ninf, _ => ERat.ninf
  | ERat.fin q, x => ERat.fin (q - x)
  | ERat.pinf, _ => ERat.pinf

/-- Add a rational to a range endpoint (infinite endpoints absorb). -/
def ERat.addQ : ERat → ℚ → ERat
  | ERat.ninf, _ => ERat.ninf
  | ERat.fin q, x => ERat.fin (q + x)
  | ERat.pinf, _ => ERat.pinf

/-- The float comparison lower <= v, where lower may be infinite. -/
def ERat.leq : ERat → ℚ → Bool
  | ERat.ninf, _ => true
  | ERat.fin q, v => decide (q ≤ v)
  | ERat.pinf, _ => false

/-- The float comparison v <= upper, where upper may be infinite. -/
def ERat.geq : ERat → ℚ → Bool
  | ERat.ninf, _ => false
  | ERat.fin q, v => decide (v ≤ q)
  | ERat.pinf, _ => true

/-- The unbounded range [-inf, inf], mirroring the infty variable. -/
def infty : ERat × ERat := (ERat.ninf, ERat.pinf)

/-- The normalized range [0, 1], mirroring the norm variable. -/
def normRange : ERat × ERat := (ERat.fin 0, ERat.fin 1)

/-- Coordinate metadata of one axis of a color space, mirroring Coordinate. -/
structure Coordinate : Type where
  name : String
  range : ERat × ERat
  refRange : ERat × ERat
  isAngle : Bool
deriving DecidableEq

/-- Go zero value of Coordinate (all fields zero). -/
def zeroCoordinate : Coordinate :=
  { name := "", range := (ERat.fin 0, ERat.fin 0),
    refRange := (ERat.fin 0, ERat.fin 0), isAngle := false }

/-- The shared R, G, B coordinate metadata, mirroring RGBCoordinates. -/
def RGBCoordinates : Coordinate × Coordinate × Coordinate :=
  ({ name := "Red", range := (ERat.fin 0, ERat.fin 1),
     refRange := (ERat.fin 0, ERat.fin 0), isAngle := false },
   { name := "Green", range := (ERat.fin 0, ERat.fin 1),
     refRange := (ERat.fin 0, ERat.fin 0), isAngle := false },
   { name := "Blue", range := (ERat.fin 0, ERat.fin 1),
     refRange := (ERat.fin 0, ERat.fin 0), isAngle := false })

/-- The transcendental numeric kernels used by concrete transfer functions
(math.Cbrt, math.Sqrt, math.Pow, math.Sin, math.Cos, math.Atan2, math.Hypot
and the constant math.Pi).  The engine treats the transfer functions built
from them as opaque pure functions, so the embedding is parameterised by this
record; theorems quantify over it. -/
structure Kernels : Type where
  cbrt : ℚ → ℚ
  sqrt : ℚ → ℚ
  powf : ℚ → ℚ → ℚ
  sin : ℚ → ℚ
  cos : ℚ → ℚ
  atan2 : ℚ → ℚ → ℚ
  hypot : ℚ → ℚ → ℚ
  pi : ℚ

/-- CIE 1931 xy chromaticity, mirroring Chromaticity. -/
structure Chromaticity : Type where
  x : ℚ
  y : ℚ

/-- Tristimulus values with Y = 1, mirroring Chromaticity.XYZ.  (Division by
a zero y gives 0 in the rational model where Go would produce an infinity;
all chromaticities used here have positive y.) -/
def Chromaticity.XYZ (chr : Chromaticity) : Vec3 :=
  (chr.x / chr.y, 1, (1 - chr.x - chr.y) / chr.y)

/-- Chromatic adaptation transform, mirroring CAT. -/
structure CAT : Type where
  toCone : Mat3
  fromCone : Mat3

/-- The Bradford transform matrices. -/
def Bradford : CAT :=
  { toCone :=
      ((0.8951, 0.2664, -0.1614),
       (-0.7502, 1.7135, 0.0367),
       (0.0389, -0.0685, 1.0296)),
    fromCone :=
      ((0.9869929054667121, -0.14705425642099013, 0.15996265166373122),
       (0.4323052697233945, 0.5183602715367774, 0.049291228212855594),
       (-0.00852866457517732, 0.04004282165408486, 0.96848669578755)) }

/-- The CAT16 transform matrices. -/
def CAT16 : CAT :=
  { toCone :=
      ((0.401288, 0.650173, -0.051461),
       (-0.250268, 1.204414, 0.045854),
       (-0.002079, 0.048952, 0.953127)),
    fromCone :=
      ((1.862067855087233, -1.0112546305316845, 0.14918677544445172),
       (0.3875265432361372, 0.6214474419314753, -0.008973985167612521),
       (-0.01584149884933386, -0.03412293802851557, 1.0499644368778496)) }

/-- Combined adaptation matrix between two white points, mirroring
CAT.Matrix. -/
def CAT.Matrix (cat : CAT) (src dst : Chromaticity) : Mat3 :=
  let ws := src.XYZ
  let wd := dst.XYZ
  let coneS := mulVecMat ws cat.toCone
  let coneD := mulVecMat wd cat.toCone
  let rr := coneD.1 / coneS.1
  let rg := coneD.2.1 / coneS.2.1
  let rb := coneD.2.2 / coneS.2.2
  let m_ : Mat3 :=
    ((cat.fromCone.1.1 * rr, cat.fromCone.1.2.1 * rg, cat.fromCone.1.2.2 * rb),
     (cat.fromCone.2.1.1 * rr, cat.fromCone.2.1.2.1 * rg, cat.fromCone.2.1.2.2 * rb),
     (cat.fromCone.2.2.1 * rr, cat.fromCone.2.2.2.1 * rg, cat.fromCone.2.2.2.2 * rb))
  mulMatMat m_ cat.toCone

/-- Application of an adaptation matrix, mirroring Adapt. -/
def Adapt (xyz : Vec3) (m : Mat3) : Vec3 :=
  mulVecMat xyz m

/-- The D50 white point as defined by CSS, mirroring WhitesCSSD50. -/
def WhitesCSSD50 : Chromaticity :=
  { x := 0.3457, y := 0.3585 }

/-- The D65 white point as specified by sRGB, mirroring WhitesSRGBD65. -/
def WhitesSRGBD65 : Chromaticity :=
  { x := 0.3127, y := 0.3290 }

/-- Identity and per-node data of a color space: the tag models Go pointer
identity (distinct allocations have distinct tags); the remaining fields
mirror the ID, Name, Coords, ToBase and FromBase fields of ColorSpace.  The
White field of the source is documentation only (stated in its doc comment)
and is omitted. -/
structure SpaceData : Type where
  tag : ℕ
  id : String
  name : String
  coords : Coordinate × Coordinate × Coordinate
  toBase : Vec3 → Vec3
  fromBase : Vec3 → Vec3

/-- A finalized color space: its own data together with the cached root path
(the data of the nodes from the root down to itself), as computed by Init. -/
structure Space : Type where
  data : SpaceData
  path : List SpaceData

/-- Finalization of a color space, mirroring ColorSpace.Init: inherit the
coordinates from the base when unset (Go zero value), default each reference
range to the gamut range when unset, and record the root path.  The walk up
the Base pointers reproduces the already-finalized base path extended by this
node.  When the coordinates are unset and there is no base, the source
dereferences the nil Base pointer (cs.Coords = cs.Base.Coords) and panics;
that failure is modelled as none. -/
def Space.Init (d : SpaceData) (base : Option Space) : Option Space :=
  match (if d.coords = (zeroCoordinate, zeroCoordinate, zeroCoordinate) then
           base.map (fun b => b.data.coords)
         else some d.coords) with
  | none => none
  | some coords0 =>
    let fix : Coordinate → Coordinate := fun co =>
      if co.refRange = (ERat.fin 0, ERat.fin 0) then { co with refRange := co.range }
      else co
    let d' := { d with coords := (fix coords0.1, fix coords0.2.1, fix coords0.2.2) }
    some { data := d',
           path := (match base with | some b => b.path | none => []) ++ [d'] }

/-- A package-level Init call of the library (or of user code known not to
hit the nil-base panic): the finalized space extracted from the successful
Init result.  Every use below either sets the coordinates or has a base, so
the panic branch of Init is never taken and the default is unreachable. -/
def Space.InitD (d : SpaceData) (base : Option Space) : Space :=
  (Space.Init d base).getD { data := d, path := [] }

/-- Length of the common prefix of two root paths, compared by node identity;
the connection space index of ColorSpace.Convert is this length minus one. -/
def matchLen : List SpaceData → List SpaceData → ℕ
  | a :: as, b :: bs => if a.tag = b.tag then matchLen as bs + 1 else 0
  | _, _ => 0

/-- Conversion between two color spaces, mirroring ColorSpace.Convert: find
the lowest common ancestor of the two cached root paths, walk ToBase up from
the source to the ancestor, then FromBase down to the destination.  The
source panics when no connection space exists; that is modelled by none.
(The parameter named to in the source is called toSpace here, since to is a
reserved word in Lean.) -/
def Space.Convert (cs toSpace : Space) (coords : Vec3) : Option Vec3 :=
  let n := matchLen cs.path toSpace.path
  if n = 0 then
    none
  else
    let up := (cs.path.drop n).foldr (fun sd acc => sd.toBase acc) coords
    let down := (toSpace.path.drop n).foldl (fun acc sd => sd.fromBase acc) up
    some down

/-- The gamut tolerance of ColorSpace.InGamut (7.5e-5). -/
def gamutEps : ℚ := 0.000075

/-- Check of a single coordinate against its gamut range, as in the loop body
of ColorSpace.InGamut. -/
def coordOk (co : Coordinate) (v : ℚ) : Bool :=
  if co.isAngle then true
  else (co.range.1.subQ gamutEps).leq v && (co.range.2.addQ gamutEps).geq v

/-- Gamut membership, mirroring ColorSpace.InGamut. -/
def Space.InGamut (cs : Space) (values : Vec3) : Bool :=
  coordOk cs.data.coords.1 values.1 &&
  coordOk cs.data.coords.2.1 values.2.1 &&
  coordOk cs.data.coords.2.2 values.2.2

/-- A color: a coordinate triple, its color space, and an alpha value,
mirroring Color. -/
structure Color : Type where
  values : Vec3
  space : Space
  alpha : ℚ

/-- The alpha clamp in Make: negative values become 0, values above 1
become 1. -/
def clamp01 (alpha : ℚ) : ℚ :=
  if alpha < 0 then 0 else if alpha > 1 then 1 else alpha

/-- Construction helper, mirroring Make: the alpha value is clamped to
[0, 1]; the coordinates are stored unchanged. -/
def Make (space : Space) (p1 p2 p3 alpha : ℚ) : Color :=
  { values := (p1, p2, p3), space := space, alpha := clamp01 alpha }

/-- Color conversion, mirroring Color.Convert: identical (pointer-equal,
modelled by tag equality) destination space short-circuits to the input;
otherwise the space-level conversion runs and alpha is copied through. -/
def Color.Convert (c : Color) (space : Space) : Option Color :=
  if c.space.data.tag = space.data.tag then
    some c
  else
    match Space.Convert c.space space c.values with
    | none => none
    | some v => some { values := v, space := space, alpha := c.alpha }

/-- Gamut membership of a color in its own space, mirroring Color.InGamut. -/
def Color.InGamut (c : Color) : Bool :=
  c.space.InGamut c.values

/-- Gamut membership after conversion, mirroring Color.InGamutOf. -/
def Color.InGamutOf (c : Color) (space : Space) : Option Bool :=
  (c.Convert space).map Color.InGamut

/-- Truncation toward zero, as used by the float modulo operation. -/
def ratTrunc (q : ℚ) : ℤ :=
  if q < 0 then -⌊-q⌋ else ⌊q⌋

/-- Float modulo, mirroring math.Mod: the result has the sign of x and
magnitude less than the magnitude of y. -/
def goMod (x y : ℚ) : ℚ :=
  x - y * (ratTrunc (x / y) : ℚ)

/-- Root node data of the conversion tree: XYZ with the D65 white point,
mirroring XYZ_D65.  Its ToBase and FromBase are nil in the source and are
never invoked (the root is never strictly above the connection space on
either leg); the model supplies identity functions in their place. -/
def xyzD65Data : SpaceData :=
  { tag := 0, id := "xyz-d65", name := "XYZ D65",
    coords :=
      ({ name := "X", range := infty, refRange := normRange, isAngle := false },
       { name := "Y", range := infty, refRange := normRange, isAngle := false },
       { name := "Z", range := infty, refRange := normRange, isAngle := false }),
    toBase := fun v => v, fromBase := fun v => v }

/-- The finalized XYZ D65 root space. -/
def XYZ_D65 : Space :=
  Space.InitD xyzD65Data none

/-- New XYZ space with a custom white point, mirroring NewXYZSpace: its
ToBase and FromBase apply the Bradford adaptation matrices to and from the
D65 root.  A tag is taken explicitly, modelling the fresh allocation. -/
def NewXYZSpace (name id : String) (tag : ℕ) (white : Chromaticity) : Space :=
  let toD65 := Bradford.Matrix white WhitesSRGBD65
  let fromD65 := Bradford.Matrix WhitesSRGBD65 white
  Space.InitD
    { tag := tag, id := id, name := name,
      coords := (zeroCoordinate, zeroCoordinate, zeroCoordinate),
      toBase := fun c => Adapt c toD65,
      fromBase := fun c => Adapt c fromD65 }
    (some XYZ_D65)

/-- The XYZ D50 space, mirroring XYZ_D50. -/
def XYZ_D50 : Space :=
  NewXYZSpace "XYZ D50" "xyz-d50" 1 WhitesCSSD50

/-- Definition record of a matrix-based RGB space, mirroring rgbColorSpace. -/
structure RGBSpaceDef : Type where
  id : String
  name : String
  base : Space
  toBase : Mat3
  fromBase : Mat3

/-- Construction of a matrix-based RGB space, mirroring newRGBColorSpace. -/
def newRGBColorSpace (tag : ℕ) (space : RGBSpaceDef) : Space :=
  Space.InitD
    { tag := tag, id := space.id, name := space.name,
      coords := RGBCoordinates,
      toBase := fun c => mulVecMat c space.toBase,
      fromBase := fun c => mulVecMat c space.fromBase }
    (some space.base)

/-- The linear Display P3 space, mirroring LinearDisplayP3. -/
def LinearDisplayP3 : Space :=
  newRGBColorSpace 2
    { id := "display-p3-linear", name := "Linear Display P3", base := XYZ_D65,
      toBase :=
        ((0.4865709486482162, 0.26566769316909306, 0.1982172852343625),
         (0.2289745640697488, 0.6917385218365064, 0.079286914093745),
         (0.0000000000000000, 0.04511338185890264, 1.043944368900976)),
      fromBase :=
        ((2.493496911941425, -0.9313836179191239, -0.40271078445071684),
         (-0.8294889695615747, 1.7626640603183463, 0.023624685841943577),
         (0.03584583024378447, -0.07617238926804182, 0.9568845240076872)) }

/-- The linear sRGB space, mirroring LinearSRGB. -/
def LinearSRGB : Space :=
  newRGBColorSpace 4
    { id := "srgb-linear", name := "Linear sRGB", base := XYZ_D65,
      toBase :=
        ((506752 / 1228815, 87881 / 245763, 12673 / 70218),
         (87098 / 409605, 175762 / 245763, 12673 / 175545),
         (7918 / 409605, 87881 / 737289, 1001167 / 1053270)),
      fromBase :=
        ((12831 / 3959, -329 / 214, -1974 / 3959),
         (-851781 / 878810, 1648619 / 878810, 36519 / 878810),
         (705 / 12673, -2585 / 12673, 705 / 667)) }

/-- The sRGB transfer function applied to one channel, as in the FromBase
closure of SRGB (gamma encoding). -/
def srgbFromBaseF (κ : Kernels) (ch : ℚ) : ℚ :=
  let sign : ℚ := if ch < 0 then -1 else 1
  let abs := ch * sign
  if abs > 0.0031308 then sign * (1.055 * κ.powf abs (1 / 2.4) - 0.055)
  else 12.92 * ch

/-- The inverse sRGB transfer function applied to one channel, as in the
ToBase closure of SRGB (gamma decoding). -/
def srgbToBaseF (κ : Kernels) (ch : ℚ) : ℚ :=
  let sign : ℚ := if ch < 0 then -1 else 1
  let abs := ch * sign
  if abs ≤ 0.04045 then ch / 12.92
  else sign * κ.powf ((abs + 0.055) / 1.055) 2.4

/-- The sRGB space, mirroring SRGB. -/
def SRGB (κ : Kernels) : Space :=
  Space.InitD
    { tag := 5, id := "srgb", name := "sRGB",
      coords := (zeroCoordinate, zeroCoordinate, zeroCoordinate),
      toBase := fun c => (srgbToBaseF κ c.1, srgbToBaseF κ c.2.1, srgbToBaseF κ c.2.2),
      fromBase := fun c => (srgbFromBaseF κ c.1, srgbFromBaseF κ c.2.1, srgbFromBaseF κ c.2.2) }
    (some LinearSRGB)

/-- The Display P3 space, mirroring DisplayP3: its gamma encoding reuses the
transfer function closures of SRGB. -/
def DisplayP3 (κ : Kernels) : Space :=
  Space.InitD
    { tag := 3, id := "display-p3", name := "Display P3",
      coords := (zeroCoordinate, zeroCoordinate, zeroCoordinate),
      toBase := (SRGB κ).data.toBase,
      fromBase := (SRGB κ).data.fromBase }
    (some LinearDisplayP3)

/-- Oklab matrix: XYZ to LMS. -/
def oklabXyzToLms : Mat3 :=
  ((0.8190224379967030, 0.3619062600528904, -0.1288737815209879),
   (0.0329836539323885, 0.9292868615863434, 0.0361446663506424),
   (0.0481771893596242, 0.2642395317527308, 0.6335478284694309))

/-- Oklab matrix: nonlinear LMS to Lab. -/
def oklabLmsToLab : Mat3 :=
  ((0.2104542683093140, 0.7936177747023054, -0.0040720430116193),
   (1.9779985324311684, -2.4285922420485799, 0.4505937096174110),
   (0.0259040424655478, 0.7827717124575296, -0.8086757549230774))

/-- Oklab matrix: Lab to nonlinear LMS. -/
def oklabLabToLms : Mat3 :=
  ((1.0000000000000000, 0.3963377773761749, 0.2158037573099136),
   (1.0000000000000000, -0.1055613458156586, -0.0638541728258133),
   (1.0000000000000000, -0.0894841775298119, -1.2914855480194092))

/-- Oklab matrix: LMS to XYZ. -/
def oklabLmsToXyz : Mat3 :=
  ((1.2268798758459243, -0.5578149944602171, 0.2813910456659647),
   (-0.0405757452148008, 1.1122868032803170, -0.0717110580655164),
   (-0.0763729366746601, -0.4214933324022432, 1.5869240198367816))

/-- The Oklab space, mirroring Oklab. -/
def Oklab (κ : Kernels) : Space :=
  Space.InitD
    { tag := 6, id := "oklab", name := "Oklab",
      coords :=
        ({ name := "Lightness", range := infty, refRange := normRange, isAngle := false },
         { name := "a", range := infty, refRange := (ERat.fin (-0.4), ERat.fin 0.4), isAngle := false },
         { name := "b", range := infty, refRange := (ERat.fin (-0.4), ERat.fin 0.4), isAngle := false }),
      fromBase := fun c =>
        let lms := mulVecMat c oklabXyzToLms
        let lms_ : Vec3 := (κ.cbrt lms.1, κ.cbrt lms.2.1, κ.cbrt lms.2.2)
        mulVecMat lms_ oklabLmsToLab,
      toBase := fun c =>
        let lms := mulVecMat c oklabLabToLms
        let lms_ : Vec3 :=
          (lms.1 * lms.1 * lms.1, lms.2.1 * lms.2.1 * lms.2.1, lms.2.2 * lms.2.2 * lms.2.2)
        mulVecMat lms_ oklabLmsToXyz }
    (some XYZ_D65)

/-- Conversion from a Lab-like space to its cylindrical form, mirroring
labToLCH: inputs with both absolute a and absolute b below the threshold eps
are achromatic and get chroma and hue exactly 0; otherwise chroma is the
Euclidean norm of (a, b) and the hue angle is normalized into [0, 360) by
the float modulo. -/
def labToLCH (κ : Kernels) (lab : Vec3) (eps : ℚ) : Vec3 :=
  let l := lab.1
  let a := lab.2.1
  let b := lab.2.2
  let achromatic := |a| < eps ∧ |b| < eps
  if achromatic then (l, 0, 0)
  else
    let c := κ.sqrt (a * a + b * b)
    let h_ := κ.atan2 b a * 180 / κ.pi
    (l, c, goMod (h_ + 360) 360)

/-- The Lab space referenced at the CSS D50 white point, mirroring Lab. -/
def Lab (κ : Kernels) : Space :=
  Space.InitD
    { tag := 8, id := "lab", name := "Lab",
      coords :=
        ({ name := "Lightness", range := infty, refRange := (ERat.fin 0, ERat.fin 100), isAngle := false },
         { name := "a", range := infty, refRange := (ERat.fin (-125), ERat.fin 125), isAngle := false },
         { name := "b", range := infty, refRange := (ERat.fin (-125), ERat.fin 125), isAngle := false }),
      fromBase := fun c =>
        let eps : ℚ := 216 / 24389
        let kap : ℚ := 24389 / 27
        let white := WhitesCSSD50.XYZ
        let x0 := c.1 / white.1
        let y0 := c.2.1 / white.2.1
        let z0 := c.2.2 / white.2.2
        let f : ℚ → ℚ := fun x => if x > eps then κ.cbrt x else (kap * x + 16) / 116
        let x_ := f x0
        let y_ := f y0
        let z_ := f z0
        (116 * y_ - 16, 500 * (x_ - y_), 200 * (y_ - z_)),
      toBase := fun c =>
        let eps3 : ℚ := 24 / 116
        let kap : ℚ := 24389 / 27
        let l := c.1
        let a := c.2.1
        let b := c.2.2
        let f1 := (l + 16) / 116
        let f0 := a / 500 + f1
        let f2 := f1 - b / 200
        let x := if f0 > eps3 then f0 * f0 * f0 else (116 * f0 - 16) / kap
        let y := if l > 8 then ((l + 16) / 116) * ((l + 16) / 116) * ((l + 16) / 116) else l / kap
        let z := if f2 > eps3 then f2 * f2 * f2 else (116 * f2 - 16) / kap
        let white := WhitesCSSD50.XYZ
        (x / white.1, y / white.2.1, z / white.2.2) }
    (some XYZ_D50)

/-- The cylindrical LCh space over Lab, mirroring LCh. -/
def LCh (κ : Kernels) : Space :=
  Space.InitD
    { tag := 9, id := "lch", name := "LCh",
      coords :=
        ({ name := "Lightness", range := infty, refRange := (ERat.fin 0, ERat.fin 100), isAngle := false },
         { name := "Chroma", range := infty, refRange := (ERat.fin 0, ERat.fin 150), isAngle := false },
         { name := "Hue", range := infty, refRange := (ERat.fin 0, ERat.fin 360), isAngle := true }),
      fromBase := fun c => labToLCH κ c (250 / 100000),
      toBase := fun cl =>
        let l := cl.1
        let c0 := cl.2.1
        let h := cl.2.2
        let c := if c0 < 0 then 0 else c0
        (l, c * κ.cos (h * κ.pi / 180), c * κ.sin (h * κ.pi / 180)) }
    (some (Lab κ))

/-- The cylindrical Oklch space over Oklab, mirroring Oklch.  Its ToBase is
the same closure as the ToBase of LCh, exactly as in the source. -/
def Oklch (κ : Kernels) : Space :=
  Space.InitD
    { tag := 7, id := "oklch", name := "Oklch",
      coords :=
        ({ name := "Lightness", range := infty, refRange := normRange, isAngle := false },
         { name := "Chroma", range := infty, refRange := (ERat.fin 0, ERat.fin 0.4), isAngle := false },
         { name := "Hue", range := infty, refRange := (ERat.fin 0, ERat.fin 360), isAngle := true }),
      fromBase := fun c => labToLCH κ c (0.8 / 100000),
      toBase := (LCh κ).data.toBase }
    (some (Oklab κ))

/-- The linear ProPhoto space, mirroring LinearProPhoto. -/
def LinearProPhoto : Space :=
  newRGBColorSpace 10
    { id := "prophoto-rgb-linear", name := "Linear ProPhoto", base := XYZ_D50,
      toBase :=
        ((0.79776664490064230, 0.13518129740053308, 0.03134773412839220),
         (0.28807482881940130, 0.71183523424187300, 0.00008993693872564),
         (0.00000000000000000, 0.00000000000000000, 0.82510460251046020)),
      fromBase :=
        ((1.34578688164715830, -0.25557208737979464, -0.05110186497554526),
         (-0.54463070512490190, 1.50824774284514680, 0.02052744743642139),
         (0.00000000000000000, 0.00000000000000000, 1.21196754563894520)) }

/-- The ProPhoto space, mirroring ProPhoto. -/
def ProPhoto (κ : Kernels) : Space :=
  Space.InitD
    { tag := 11, id := "prophoto-rgb", name := "ProPhoto",
      coords := RGBCoordinates,
      toBase := fun c =>
        let f : ℚ → ℚ := fun v => if v < 16 / 512 then v / 16 else κ.powf v 1.8
        (f c.1, f c.2.1, f c.2.2),
      fromBase := fun c =>
        let f : ℚ → ℚ := fun v => if v ≥ 1 / 512 then κ.powf v (1 / 1.8) else 16 * v
        (f c.1, f c.2.1, f c.2.2) }
    (some LinearProPhoto)

/-- Euclidean distance in a given color space, mirroring DeltaDistance: both
colors are converted to the space and the three coordinate deltas are folded
with the float hypot; the alpha values never enter the computation. -/
def DeltaDistance (κ : Kernels) (reference sample : Color) (space : Space) : Option ℚ := do
  let ref ← reference.Convert space
  let s ← sample.Convert space
  let d0 := ref.values.1 - s.values.1
  let d1 := ref.values.2.1 - s.values.2.1
  let d2 := ref.values.2.2 - s.values.2.2
  some (κ.hypot (κ.hypot d0 d1) d2)

/-- CIE 1976 color difference, mirroring DeltaE76. -/
def DeltaE76 (κ : Kernels) (reference sample : Color) : Option ℚ :=
  DeltaDistance κ reference sample (Lab κ)

/-- Oklab Euclidean color difference, mirroring DeltaEOK. -/
def DeltaEOK (κ : Kernels) (reference sample : Color) : Option ℚ :=
  DeltaDistance κ reference sample (Oklab κ)

/-- Oklab Euclidean color difference with the a and b axes scaled by 2,
mirroring DeltaEOK2. -/
def DeltaEOK2 (κ : Kernels) (reference sample : Color) : Option ℚ := do
  let ref ← reference.Convert (Oklab κ)
  let s ← sample.Convert (Oklab κ)
  let d0 := ref.values.1 - s.values.1
  let d1 := 2 * (ref.values.2.1 - s.values.2.1)
  let d2 := 2 * (ref.values.2.2 - s.values.2.2)
  some (κ.hypot (κ.hypot d0 d1) d2)

/-- Interpolated colors between c1 and c2, mirroring Step: the iterator is
collected into a list.  Element i (0-based) is the linear interpolation of
the two endpoint colors (converted into the interpolation space) at
parameter t = (i+1)/num, built with Make and converted to the output
space. -/
def Step (c1 c2 : Color) (inSpace outSpace : Space) (num : ℕ) : Option (List Color) := do
  let c1in ← c1.Convert inSpace
  let c2in ← c2.Convert inSpace
  (List.range num).mapM (fun (i : ℕ) => do
    let t : ℚ := ((i + 1 : ℕ) : ℚ) / (num : ℚ)
    let c := Make inSpace
      (lerp c1in.values.1 c2in.values.1 t)
      (lerp c1in.values.2.1 c2in.values.2.1 t)
      (lerp c1in.values.2.2 c2in.values.2.2 t)
      (lerp c1in.alpha c2in.alpha t)
    c.Convert outSpace)

/-- Float clamp as written inside the clip closure of GamutMapCSS.  The
bounds are range endpoints and may be infinite; a comparison against an
infinite bound is never true, so infinite bounds never clamp.  (Go would
store the infinite bound itself if it did; that case cannot arise.) -/
def clampGo (f : ℚ) (low high : ERat) : ℚ :=
  if (match low with | ERat.fin l => decide (f < l) | _ => false) then
    match low with | ERat.fin l => l | _ => f
  else if (match high with | ERat.fin h => decide (f > h) | _ => false) then
    match high with | ERat.fin h => h | _ => f
  else f

/-- The clip closure of GamutMapCSS: convert to the destination space and
clamp every coordinate to its declared gamut range. -/
def clip (toSpace : Space) (cc : Color) : Option Color := do
  let ccc ← cc.Convert toSpace
  some { ccc with values :=
    (clampGo ccc.values.1 ccc.space.data.coords.1.range.1 ccc.space.data.coords.1.range.2,
     clampGo ccc.values.2.1 ccc.space.data.coords.2.1.range.1 ccc.space.data.coords.2.1.range.2,
     clampGo ccc.values.2.2 ccc.space.data.coords.2.2.range.1 ccc.space.data.coords.2.2.range.2) }

/-- The just noticeable difference threshold of GamutMapCSS. -/
def jnd : ℚ := 0.02

/-- The numeric tolerance of the GamutMapCSS binary search. -/
def gmEps : ℚ := 0.0001

/-- Replace the chroma coordinate (index 1) of a color, as the assignment
current.Values[1] = chroma does inside the GamutMapCSS loop. -/
def setChroma (c : Color) (q : ℚ) : Color :=
  { c with values := (c.values.1, q, c.values.2.2) }

/-- The chroma binary search loop of GamutMapCSS, with explicit fuel for the
unbounded for loop.  State: the current working color, the last clipped
candidate, the search interval and the minInGamut flag.  none models either
a panic inside a conversion or fuel exhaustion (the loop body makes no
progress when minInGamut is false and the midpoint is in gamut, so the
source loop is not structurally terminating). -/
def gmLoop (κ : Kernels) (toSpace : Space) :
    ℕ → Color → Color → ℚ → ℚ → Bool → Option Color
  | fuel, current, clipped, lo, hi, minInGamut =>
    if hi - lo > gmEps then
      match fuel with
      | 0 => none
      | fuel + 1 =>
        let chroma := (lo + hi) / 2
        let current' := setChroma current chroma
        match current'.InGamutOf toSpace with
        | none => none
        | some inG =>
          if minInGamut && inG then
            gmLoop κ toSpace fuel current' clipped chroma hi minInGamut
          else if !inG then
            match clip toSpace current' with
            | none => none
            | some clipped' =>
              match DeltaEOK κ clipped' current' with
              | none => none
              | some e =>
                if e < jnd then
                  if jnd - e < gmEps then some clipped'
                  else gmLoop κ toSpace fuel current' clipped' chroma hi false
                else gmLoop κ toSpace fuel current' clipped' lo chroma minInGamut
          else
            gmLoop κ toSpace fuel current' clipped lo hi minInGamut
    else
      some clipped

/-- The CSS gamut mapping algorithm, mirroring GamutMapCSS: destinations
with three unbounded ranges are returned converted; working-space lightness
at or above 1 (respectively at or below 0) returns the converted white
(black) Oklab endpoint; a destination conversion already in gamut is
returned; otherwise the chroma binary search runs.  The fuel bounds the
search loop. -/
def GamutMapCSS (κ : Kernels) (fuel : ℕ) (c : Color) (toSpace : Space) : Option Color :=
  if toSpace.data.coords.1.range = infty ∧ toSpace.data.coords.2.1.range = infty ∧
      toSpace.data.coords.2.2.range = infty then
    c.Convert toSpace
  else
    match c.Convert (Oklch κ) with
    | none => none
    | some cOklch =>
      if cOklch.values.1 ≥ 1 then
        (Make (Oklab κ) 1 0 0 c.alpha).Convert toSpace
      else if cOklch.values.1 ≤ 0 then
        (Make (Oklab κ) 0 0 0 c.alpha).Convert toSpace
      else
        match cOklch.Convert toSpace with
        | none => none
        | some outc =>
          if outc.InGamut then some outc
          else
            match clip toSpace cOklch with
            | none => none
            | some clipped =>
              match DeltaEOK κ clipped cOklch with
              | none => none
              | some e =>
                if e < jnd then some clipped
                else gmLoop κ toSpace fuel cOklch clipped 0 cOklch.values.2.1 true

/-- Character class of the space identifier in the color() grammar
([a-zA-Z0-9-]). -/
def idChar (ch : Char) : Bool :=
  ch.isAlpha || ch.isDigit || ch = '-'

/-- Drop one optional leading sign character. -/
def dropSign (l : List Char) : List Char :=
  if l.head? = some '+' ∨ l.head? = some '-' then l.tail else l

/-- Nonempty digit run. -/
def digitRun (l : List Char) : Bool :=
  decide (l ≠ []) && l.all Char.isDigit

/-- Numeric token core of the color() grammar, the regular expression
alternation [+-]?d+ | [+-]?d*.d+([eE][+-]?d+)? written as a direct
recognizer (tokens contain no separator characters, so the full-token match
of the anchored regular expression is exactly this predicate). -/
def numCore (l : List Char) : Bool :=
  let l1 := dropSign l
  let intPart := l1.takeWhile Char.isDigit
  let rest := l1.drop intPart.length
  match rest with
  | [] => digitRun l1
  | '.' :: rest2 =>
    let frac := rest2.takeWhile Char.isDigit
    let rest3 := rest2.drop frac.length
    digitRun frac &&
      (match rest3 with
       | [] => true
       | e :: rest4 => (e = 'e' || e = 'E') && digitRun (dropSign rest4))
  | _ => false

/-- Numeric token with its optional trailing percent sign. -/
def numTok (l : List Char) : Bool :=
  match l.getLast? with
  | some '%' => numCore l.dropLast
  | _ => numCore l

/-- Numeric value of a digit run. -/
def digitsVal (l : List Char) : ℕ :=
  l.foldl (fun acc ch => acc * 10 + (ch.toNat - 48)) 0

/-- Exact decimal value of a syntactically valid numeric token. -/
def decimalVal (l : List Char) : ℚ :=
  let sign : ℚ := if l.head? = some '-' then -1 else 1
  let l1 := dropSign l
  let intPart := l1.takeWhile Char.isDigit
  let rest := l1.drop intPart.length
  let isFrac := rest.head? = some '.'
  let rest2 := rest.tail
  let frac := rest2.takeWhile Char.isDigit
  let mant : ℚ :=
    if isFrac then (digitsVal intPart : ℚ) + (digitsVal frac : ℚ) / ((10 : ℚ) ^ frac.length)
    else (digitsVal intPart : ℚ)
  let rest3 := rest2.drop frac.length
  let expDigits := rest3.tail
  let expPart : ℤ :=
    if isFrac ∧ rest3 ≠ [] then
      (if expDigits.head? = some '-' then -(digitsVal expDigits.tail : ℤ)
       else if expDigits.head? = some '+' then (digitsVal expDigits.tail : ℤ)
       else (digitsVal expDigits : ℤ))
    else 0
  sign * mant * (10 : ℚ) ^ expPart

/-- Smallest magnitude that overflows float64 parsing: values at least
2^1024 - 2^970 round to infinity. -/
def float64Overflow : ℚ :=
  (2 : ℚ) ^ (1024 : ℕ) - (2 : ℚ) ^ (970 : ℕ)

/-- Model of strconv.ParseFloat on the numeric tokens admitted by the
color() grammar (the standard library source is outside this repository, so
this follows its documented behaviour): the exact decimal value is produced,
except that a syntactically valid number whose magnitude overflows float64
yields a range error, modelled as none.  Inputs outside the token grammar
also yield none; Parse never passes one. -/
def goParseFloat (l : List Char) : Option ℚ :=
  if numCore l then
    let v := decimalVal l
    if |v| ≥ float64Overflow then none else some v
  else none

/-- The registry contents after the init function has registered the twelve
package spaces (RegisterColorSpace keyed by ID; re-registration of base
spaces is a no-op, so the map holds exactly these entries). -/
def registry (κ : Kernels) : List (String × Space) :=
  [("xyz-d50", XYZ_D50),
   ("xyz-d65", XYZ_D65),
   ("display-p3-linear", LinearDisplayP3),
   ("display-p3", DisplayP3 κ),
   ("srgb-linear", LinearSRGB),
   ("srgb", SRGB κ),
   ("oklab", Oklab κ),
   ("oklch", Oklch κ),
   ("prophoto-rgb", ProPhoto κ),
   ("prophoto-rgb-linear", LinearProPhoto),
   ("lab", Lab κ),
   ("lch", LCh κ)]

/-- Strip one leading double dash, as strings.TrimPrefix does in the
lookup. -/
def trimDashes (s : String) : String :=
  if s.toList.take 2 = ['-', '-'] then String.mk (s.toList.drop 2) else s

/-- Registered color space lookup by ID, mirroring LookupSpace. -/
def LookupSpace (κ : Kernels) (id : String) : Option Space :=
  (registry κ).lookup (trimDashes id)

/-- Finite value of a range endpoint; an infinite endpoint contributes 0
here where Go arithmetic would produce an infinite lerp (all library
reference ranges are finite, so Parse never reaches that case). -/
def finQ : ERat → ℚ
  | ERat.fin q => q
  | _ => 0

/-- Coordinate of a space selected by index, as values[idx] selects the
coordinate in the source. -/
def coordAt (cs : Space) (i : ℕ) : Coordinate :=
  if i = 0 then cs.data.coords.1
  else if i = 1 then cs.data.coords.2.1
  else cs.data.coords.2.2

/-- The per-token closure of Parse, mirroring parseValue: the returned value
is what the closure assigns into values[idx]; none is the false return (the
token failed to parse).  Index 3 is the alpha channel: an absent token
defaults to 1 and bare numbers are clamped to [0, 1].  A percentage is
clamped to [0, 100], scaled to [0, 1], and for a coordinate index mapped
through the reference range of the coordinate.  Library reference ranges are
always finite; an infinite endpoint contributes 0 here where Go arithmetic
would produce an infinite lerp (unreachable from Parse). -/
def parseValue (cs : Space) (idx : ℕ) (s : List Char) : Option ℚ :=
  if idx = 3 ∧ s = [] then
    some 1
  else if s.getLast? = some '%' then
    match goParseFloat s.dropLast with
    | none => none
    | some f0 =>
      let f1 := if f0 < 0 then 0 else if f0 > 100 then 100 else f0
      let f := f1 / 100
      if idx = 3 then some f
      else
        let rng := (coordAt cs idx).refRange
        some (lerp (finQ rng.1) (finQ rng.2) f)
  else
    match goParseFloat s with
    | none => none
    | some f =>
      if idx = 3 then some (if f < 0 then 0 else if f > 1 then 1 else f)
      else some f

/-- Structural match of the anchored color() regular expression: the literal
head color(, a nonempty identifier, three numeric tokens separated by single
spaces, an optional alpha clause (a space-slash-space followed by a
mandatory nonempty numeric token, as in the regular expression), a closing
parenthesis and an optional trailing semicolon.  Produces the five capture
groups (the alpha group is empty when absent), or none when the string does
not match. -/
def matchColor (s : String) : Option (String × String × String × String × String) := do
  let l := s.toList
  if l.take 6 = "color(".toList then
    let rest := l.drop 6
    let rest1 := if rest.getLast? = some ';' then rest.dropLast else rest
    if rest1.getLast? = some ')' then
      let body := rest1.dropLast
      let post : List (List Char) → Option (List Char × List Char × List Char × List Char × List Char) :=
        fun fields =>
          match fields with
          | [i, a, b, c] => some (i, a, b, c, [])
          | [i, a, b, c, sl, d] =>
            if sl = ['/'] ∧ d ≠ [] then some (i, a, b, c, d) else none
          | _ => none
      let fields := body.splitOn ' '
      match post fields with
      | none => none
      | some (i, a, b, c, d) =>
        if decide (i ≠ []) && i.all idChar && numTok a && numTok b && numTok c &&
            (decide (d = []) || numTok d) then
          some (String.mk i, String.mk a, String.mk b, String.mk c, String.mk d)
        else none
    else none
  else none

/-- CSS color() parser, mirroring Parse.  The Go function returns a pair of
a Color and a success flag; failure results (flag false) are modelled as
none.  The four parseValue results are discarded exactly as in the source:
a token whose float conversion fails leaves its zero initial value in
place and does not make Parse fail. -/
def Parse (κ : Kernels) (s : String) : Option Color := do
  let (space0, x, y, z, a) ← matchColor s
  let space := if space0 = "xyz" then "xyz-d65" else space0
  match LookupSpace κ space with
  | none => none
  | some cs =>
    let v0 := (parseValue cs 0 x.toList).getD 0
    let v1 := (parseValue cs 1 y.toList).getD 0
    let v2 := (parseValue cs 2 z.toList).getD 0
    let v3 := (parseValue cs 3 a.toList).getD 0
    some (Make cs v0 v1 v2 v3)

/-- Spec-side statement for one coordinate of the gamut test, following the
words of the specification: an angle coordinate is always in gamut; a
non-angle coordinate must lie within [min - eps, max + eps] for
eps = 7.5e-5, an infinite bound imposing no constraint on its side. -/
def coordInSpec (co : Coordinate) (x : ℚ) : Prop :=
  co.isAngle = true ∨
    ((match co.range.1 with
      | ERat.fin lo => lo - 75 / 1000000 ≤ x
      | ERat.ninf => True
      | ERat.pinf => False) ∧
     (match co.range.2 with
      | ERat.fin hi => x ≤ hi + 75 / 1000000
      | ERat.pinf => True
      | ERat.ninf => False))

/-- Spec-side gamut membership: every coordinate passes coordInSpec. -/
def InGamutSpec (sp : Space) (v : Vec3) : Prop :=
  coordInSpec sp.data.coords.1 v.1 ∧
  coordInSpec sp.data.coords.2.1 v.2.1 ∧
  coordInSpec sp.data.coords.2.2 v.2.2

/-- A well-formed bounded range: both endpoints finite and ordered. -/
def boundedRange : ERat × ERat → Bool
  | (ERat.fin lo, ERat.fin hi) => decide (lo ≤ hi)
  | _ => false

/-- All three coordinate ranges of a space bounded and well-formed. -/
def boundedSpace (sp : Space) : Bool :=
  boundedRange sp.data.coords.1.range &&
  boundedRange sp.data.coords.2.1.range &&
  boundedRange sp.data.coords.2.2.range

/-- Gamut membership of the working color at a given chroma, with lightness
and hue held fixed: the predicate whose chroma-monotonicity the gamut
mapping search relies on. -/
def chromaInGamut (c : Color) (toSpace : Space) (q : ℚ) : Bool :=
  ((setChroma c q).InGamutOf toSpace).getD false

/-- Concrete stand-in kernels used to instantiate witnesses.  The theorems
hold for every Kernels record, in particular for the real-valued one; the
witnesses only need some computable record. -/
def kernelsZero : Kernels :=
  { cbrt := fun _ => 0, sqrt := fun _ => 0, powf := fun _ _ => 0,
    sin := fun _ => 0, cos := fun _ => 0, atan2 := fun _ _ => 1 / 4,
    hypot := fun _ _ => 0, pi := 180 }

/-- Coordinate with gamut and reference range [0, 1]. -/
def unitCoord (nm : String) : Coordinate :=
  { name := nm, range := (ERat.fin 0, ERat.fin 1),
    refRange := (ERat.fin 0, ERat.fin 1), isAngle := false }

/-- Coordinate with gamut and reference range [2, 3]. -/
def shiftCoord (nm : String) : Coordinate :=
  { name := nm, range := (ERat.fin 2, ERat.fin 3),
    refRange := (ERat.fin 2, ERat.fin 3), isAngle := false }

/-- A user-constructed bounded destination space below the XYZ D65 root with
identity transfer functions and unit ranges (the library supports
user-defined spaces; tag 100 models its fresh allocation). -/
def demoSpace : Space :=
  Space.InitD
    { tag := 100, id := "demo-bounded", name := "Demo Bounded",
      coords := (unitCoord "A", unitCoord "B", unitCoord "C"),
      toBase := fun v => v, fromBase := fun v => v }
    (some XYZ_D65)

/-- A user-constructed destination space based on Oklab with identity
transfer functions whose gamut ranges are [2, 3] on all axes: bounded, but
not containing the converted white endpoint. -/
def narrowSpace (κ : Kernels) : Space :=
  Space.InitD
    { tag := 101, id := "narrow-bounded", name := "Narrow Bounded",
      coords := (shiftCoord "A", shiftCoord "B", shiftCoord "C"),
      toBase := fun v => v, fromBase := fun v => v }
    (some (Oklab κ))

/-- Data of a user-constructed root space (no base), tag 102. -/
def rootAData : SpaceData :=
  { tag := 102, id := "root-a", name := "Root A",
    coords := (unitCoord "A", unitCoord "B", unitCoord "C"),
    toBase := fun v => v, fromBase := fun v => v }

/-- Data of a second, unrelated user-constructed root space, tag 103. -/
def rootBData : SpaceData :=
  { tag := 103, id := "root-b", name := "Root B",
    coords := (unitCoord "A", unitCoord "B", unitCoord "C"),
    toBase := fun v => v, fromBase := fun v => v }

/-- An Oklch color with lightness 2 (at or above the white cutoff). -/
def hotOklch (κ : Kernels) : Color :=
  { values := (2, 0, 0), space := Oklch κ, alpha := 1 }

/-- An Oklch color with lightness 1/2 and chroma 2. -/
def midOklch (κ : Kernels) : Color :=
  { values := (1 / 2, 2, 0), space := Oklch κ, alpha := 1 }

/-- An Oklch color with lightness 2 and alpha 1/2, for the alpha tests. -/
def hotOklchHalfAlpha : Color :=
  { values := (2, 0, 0), space := Oklch kernelsZero, alpha := 1 / 2 }

theorem matchLen_self (p : List SpaceData) : matchLen p p = p.length := by
  induction p with
  | nil => rfl
  | cons a as ih => simp [matchLen, ih]

theorem init_path (d : SpaceData) (base : Option Space) (s : Space)
    (h : Space.Init d base = some s) :
    s.path = (match base with | some b => b.path | none => []) ++ [s.data] := by
  unfold Space.Init at h
  cases base with
  | none =>
    by_cases hz : d.coords = (zeroCoordinate, zeroCoordinate, zeroCoordinate)
    · rw [if_pos hz] at h
      cases h
    · rw [if_neg hz] at h
      dsimp only at h
      cases h
      rfl
  | some b =>
    by_cases hz : d.coords = (zeroCoordinate, zeroCoordinate, zeroCoordinate)
    · rw [if_pos hz] at h
      dsimp only [Option.map_some'] at h
      cases h
      rfl
    · rw [if_neg hz] at h
      dsimp only at h
      cases h
      rfl

theorem init_path_ne_nil (d : SpaceData) (base : Option Space) (s : Space)
    (h : Space.Init d base = some s) : s.path ≠ [] := by
  rw [init_path d base s h]
  intro hc
  rcases List.append_eq_nil.mp hc with ⟨-, h2⟩
  exact List.cons_ne_nil _ _ h2

theorem init_some_isSome (d : SpaceData) (b : Space) :
    ∃ s, Space.Init d (some b) = some s ∧ s.path = b.path ++ [s.data] := by
  obtain ⟨s, hs⟩ : ∃ s, Space.Init d (some b) = some s := by
    unfold Space.Init
    by_cases hz : d.coords = (zeroCoordinate, zeroCoordinate, zeroCoordinate)
    · rw [if_pos hz]
      exact ⟨_, rfl⟩
    · rw [if_neg hz]
      exact ⟨_, rfl⟩
  exact ⟨s, hs, init_path d (some b) s hs⟩

theorem init_none_iff (d : SpaceData) :
    Space.Init d none = none ↔
      d.coords = (zeroCoordinate, zeroCoordinate, zeroCoordinate) := by
  unfold Space.Init
  by_cases hz : d.coords = (zeroCoordinate, zeroCoordinate, zeroCoordinate)
  · rw [if_pos hz]
    exact iff_of_true rfl hz
  · rw [if_neg hz]
    refine iff_of_false ?_ hz
    intro hc
    cases hc

theorem convert_self_of_path_ne_nil (sp : Space) (v : Vec3) (h : sp.path ≠ []) :
    Space.Convert sp sp v = some v := by
  unfold Space.Convert
  rw [matchLen_self]
  have hlen : sp.path.length ≠ 0 := fun hc => h (List.length_eq_zero.mp hc)
  simp [hlen, List.drop_length]

theorem convert_none_iff (s t : Space) (v : Vec3) :
    Space.Convert s t v = none ↔ matchLen s.path t.path = 0 := by
  unfold Space.Convert
  by_cases h : matchLen s.path t.path = 0 <;> simp [h]

theorem matchLen_eq_zero_iff (p q : List SpaceData) :
    matchLen p q = 0 ↔
      p = [] ∨ q = [] ∨ ∀ a as b bs, p = a :: as → q = b :: bs → a.tag ≠ b.tag := by
  constructor
  · intro h
    cases p with
    | nil => exact Or.inl rfl
    | cons a as =>
      cases q with
      | nil => exact Or.inr (Or.inl rfl)
      | cons b bs =>
        refine Or.inr (Or.inr ?_)
        intro a' as' b' bs' hp hq htag
        cases hp
        cases hq
        rw [matchLen, if_pos htag] at h
        exact Nat.succ_ne_zero _ h
  · intro h
    rcases h with h | h | h
    · subst h; rfl
    · subst h; cases p <;> rfl
    · cases p with
      | nil => rfl
      | cons a as =>
        cases q with
        | nil => rfl
        | cons b bs =>
          rw [matchLen, if_neg (h a as b bs rfl rfl)]

theorem convert_isSome_of_matchLen (s t : Space) (v : Vec3)
    (h : matchLen s.path t.path ≠ 0) : ∃ w, Space.Convert s t v = some w := by
  unfold Space.Convert
  simp [h]

theorem color_convert_alpha (c : Color) (sp : Space) (c' : Color)
    (h : c.Convert sp = some c') : c'.alpha = c.alpha := by
  unfold Color.Convert at h
  by_cases htag : c.space.data.tag = sp.data.tag
  · rw [if_pos htag] at h
    cases h
    rfl
  · rw [if_neg htag] at h
    cases hc : Space.Convert c.space sp c.values with
    | none => rw [hc] at h; cases h
    | some v => rw [hc] at h; cases h; rfl

theorem color_convert_space (c : Color) (sp : Space) (c' : Color)
    (h : c.Convert sp = some c') (htag : c.space.data.tag ≠ sp.data.tag) :
    c'.space = sp := by
  unfold Color.Convert at h
  rw [if_neg htag] at h
  cases hc : Space.Convert c.space sp c.values with
  | none => rw [hc] at h; cases h
  | some v => rw [hc] at h; cases h; rfl

/-- C1: converting from a node to itself is the exact identity.
Color.Convert short-circuits when the destination space is the color's own
space and returns the color unchanged, and the space-level
ColorSpace.Convert of any finalized node (any successful Init result) to
itself applies no transform functions: it returns the coordinate triple
exactly, whatever the ToBase and FromBase functions are. -/
theorem claim_C1_convert_identity :
    (∀ (v : Vec3) (sp : Space) (a : ℚ),
      Color.Convert { values := v, space := sp, alpha := a } sp =
        some { values := v, space := sp, alpha := a }) ∧
    (∀ (d : SpaceData) (base : Option Space) (s : Space),
      Space.Init d base = some s → ∀ v : Vec3, Space.Convert s s v = some v) := by
  constructor
  · intro v sp a
    unfold Color.Convert
    simp
  · intro d base s h v
    exact convert_self_of_path_ne_nil _ v (init_path_ne_nil d base s h)

/-- Witness for C1: the finalized XYZ D65 root is a successful Init result
and converts to itself exactly. -/
theorem claim_C1_witness :
    Space.Init xyzD65Data none = some XYZ_D65 ∧
    Space.Convert XYZ_D65 XYZ_D65 (1, 2, 3) = some (1, 2, 3) :=
  ⟨rfl, claim_C1_convert_identity.2 xyzD65Data none XYZ_D65 rfl (1, 2, 3)⟩

/-- C5 counterexample: two root spaces (both with set coordinates, so Init
succeeds on them with no base) are finalized without any failure and get the
expected one-element root paths, yet converting between them panics at
conversion time inside ColorSpace.Convert (modelled as none), because no
connection space exists.  The claimed construction-time fail-fast does not
exist: the disconnection surfaces at conversion time. -/
theorem claim_C5_counterexample :
    Space.Init rootAData none = some (Space.InitD rootAData none) ∧
    Space.Init rootBData none = some (Space.InitD rootBData none) ∧
    (Space.InitD rootAData none).path = [(Space.InitD rootAData none).data] ∧
    (Space.InitD rootBData none).path = [(Space.InitD rootBData none).data] ∧
    Space.Convert (Space.InitD rootAData none) (Space.InitD rootBData none) (0, 0, 0) =
      none := by
  exact ⟨rfl, rfl, rfl, rfl, rfl⟩

/-- C5 amended: Init performs no reachability or connectivity check.  With a
base present it always returns normally, whatever the base chain is, caching
the base path extended by the node itself; without a base its only failure
is the nil-pointer panic (none) on unset coordinates, a failure mode
unrelated to connection spaces.  Unreachable connection spaces are instead
detected at conversion time: ColorSpace.Convert panics (none) exactly when
the cached root paths of the two spaces share no common prefix. -/
theorem claim_C5_init_no_root_check :
    (∀ (d : SpaceData) (b : Space),
      ∃ s, Space.Init d (some b) = some s ∧ s.path = b.path ++ [s.data]) ∧
    (∀ d : SpaceData, Space.Init d none = none ↔
      d.coords = (zeroCoordinate, zeroCoordinate, zeroCoordinate)) ∧
    (∀ (s t : Space) (v : Vec3),
      Space.Convert s t v = none ↔ matchLen s.path t.path = 0) := by
  exact ⟨init_some_isSome, init_none_iff, convert_none_iff⟩

theorem gamutEps_eq : gamutEps = 75 / 1000000 := by
  norm_num [gamutEps]

theorem coordOk_iff (co : Coordinate) (x : ℚ) :
    coordOk co x = true ↔ coordInSpec co x := by
  unfold coordOk coordInSpec
  cases hang : co.isAngle
  · cases h1 : co.range.1 <;> cases h2 : co.range.2 <;>
      simp [ERat.subQ, ERat.addQ, ERat.leq, ERat.geq, gamutEps_eq]
  · simp

/-- C6: InGamut returns true exactly when every non-angle coordinate lies
within [min - eps, max + eps] for eps = 7.5e-5 (an infinite bound imposing
no constraint), and angle-flagged coordinates are in gamut regardless of
their value. -/
theorem claim_C6_inGamut_iff (sp : Space) (v : Vec3) :
    sp.InGamut v = true ↔ InGamutSpec sp v := by
  unfold Space.InGamut InGamutSpec
  simp [coordOk_iff, and_assoc]

/-- C3 evaluation at the failing input: interpolating from (0,0,0) to
(1,0,0) in linear sRGB with num = 2 produces first element (1/2, 0, 0) and
last element (1, 0, 0), while the first endpoint converted to the output
space is (0, 0, 0): the first produced element differs from the converted
first endpoint, because the loop parameter is t = (i+1)/num rather than
t = i/(num-1).  The final element does equal the converted second endpoint.
The repository test TestStep asserts that the first element equals c1, so
the code contradicts its own test. -/
theorem claim_C3_step_first_element :
    (Step (Make LinearSRGB 0 0 0 1) (Make LinearSRGB 1 0 0 1) LinearSRGB LinearSRGB 2).map
      (fun l => l.map Color.values) = some [(1 / 2, 0, 0), (1, 0, 0)] ∧
    ((Make LinearSRGB 0 0 0 1).Convert LinearSRGB).map Color.values = some (0, 0, 0) ∧
    ((1 : ℚ) / 2, (0 : ℚ), (0 : ℚ)) ≠ ((0 : ℚ), (0 : ℚ), (0 : ℚ)) := by
  refine ⟨?_, ?_, ?_⟩
  · norm_num [Step, Make, Color.Convert, lerp, List.range_succ, List.mapM, List.mapM.loop]
  · norm_num [Make, Color.Convert]
  · intro h
    have := congrArg Prod.fst h
    norm_num at this

theorem goParseFloat_overflow_tok : goParseFloat ['1', '.', '0', 'e', '9', '9', '9'] = none := by
  have hcore : numCore ['1', '.', '0', 'e', '9', '9', '9'] = true := by decide
  have hval : decimalVal ['1', '.', '0', 'e', '9', '9', '9'] =
      1 * ((digitsVal ['1'] : ℚ) + (digitsVal ['0'] : ℚ) / (10 : ℚ) ^ ([ '0' ].length)) *
        (10 : ℚ) ^ ((digitsVal ['9', '9', '9'] : ℕ) : ℤ) := rfl
  have hd1 : (digitsVal ['1'] : ℕ) = 1 := by decide
  have hd0 : (digitsVal ['0'] : ℕ) = 0 := by decide
  have hd9 : (digitsVal ['9', '9', '9'] : ℕ) = 999 := by decide
  rw [hd1, hd0, hd9] at hval
  have hval2 : decimalVal ['1', '.', '0', 'e', '9', '9', '9'] = (10 : ℚ) ^ (999 : ℕ) := by
    rw [hval]; norm_num
  have hge : |decimalVal ['1', '.', '0', 'e', '9', '9', '9']| ≥ float64Overflow := by
    rw [hval2, float64Overflow, abs_of_nonneg (by positivity)]
    calc (2 : ℚ) ^ (1024 : ℕ) - 2 ^ (970 : ℕ) ≤ 2 ^ (1024 : ℕ) := sub_le_self _ (by positivity)
    _ ≤ 10 ^ (999 : ℕ) := by norm_num
  unfold goParseFloat
  rw [hcore]
  simp only [if_true]
  rw [if_pos hge]

theorem goParseFloat_zero_tok : goParseFloat ['0'] = some 0 := by
  have hcore : numCore ['0'] = true := by decide
  have hval : decimalVal ['0'] = 1 * ((digitsVal ['0'] : ℚ)) * (10 : ℚ) ^ (0 : ℤ) := rfl
  have hd0 : (digitsVal ['0'] : ℕ) = 0 := by decide
  rw [hd0] at hval
  have hval2 : decimalVal ['0'] = 0 := by rw [hval]; norm_num
  have hno : ¬ (|decimalVal ['0']| ≥ float64Overflow) := by
    rw [hval2, float64Overflow]
    intro h
    norm_num at h
  unfold goParseFloat
  rw [hcore]
  simp only [if_true]
  rw [if_neg hno, hval2]

/-- C4 evaluation at the failing input: the numeric token 1.0e999 passes the
grammar but overflows float64 parsing (the modelled ParseFloat reports a
range failure, and the parseValue closure would report false), yet Parse
succeeds: it returns the color (0, 0, 0) in sRGB with alpha 1 instead of
failing, because the results of the four parseValue calls are discarded.
The claim (and the comment inside parseValue) requires parsing to fail on
such a token, so the code contradicts its own intent: ok is true and a
zero-filled coordinate silently stands in for the unparsable token. -/
theorem claim_C4_parse_overflow_not_failing :
    numCore "1.0e999".toList = true ∧
    goParseFloat "1.0e999".toList = none ∧
    (Parse kernelsZero "color(srgb 1.0e999 0 0)").map
      (fun c => (c.values, c.space.data.id, c.alpha)) =
        some (((0 : ℚ), (0 : ℚ), (0 : ℚ)), "srgb", (1 : ℚ)) := by
  refine ⟨by decide, goParseFloat_overflow_tok, ?_⟩
  have hm : matchColor "color(srgb 1.0e999 0 0)" = some ("srgb", "1.0e999", "0", "0", "") := by
    decide
  have hpv0 : parseValue (SRGB kernelsZero) 0 "1.0e999".toList = none := by
    unfold parseValue
    rw [show ("1.0e999".toList.getLast?) = some '9' from rfl]
    rw [if_neg (show ¬(0 = 3 ∧ "1.0e999".toList = []) from by decide)]
    rw [if_neg (show ¬((some '9' : Option Char) = some '%') from by decide)]
    show (match goParseFloat ['1', '.', '0', 'e', '9', '9', '9'] with
      | none => none
      | some f => if (0 : ℕ) = 3 then some (if f < 0 then 0 else if f > 1 then 1 else f) else some f) = none
    rw [goParseFloat_overflow_tok]
  have hpv : ∀ idx : ℕ, idx ≠ 3 → parseValue (SRGB kernelsZero) idx "0".toList = some 0 := by
    intro idx h3
    unfold parseValue
    rw [show ("0".toList.getLast?) = some '0' from rfl]
    rw [if_neg (fun hc => h3 hc.1)]
    rw [if_neg (show ¬((some '0' : Option Char) = some '%') from by decide)]
    show (match goParseFloat ['0'] with
      | none => none
      | some f => if idx = 3 then some (if f < 0 then 0 else if f > 1 then 1 else f) else some f) = some 0
    rw [goParseFloat_zero_tok]
    show (if idx = 3 then some (if (0 : ℚ) < 0 then 0 else if (0 : ℚ) > 1 then 1 else (0 : ℚ)) else some 0) = some 0
    rw [if_neg h3]
  have hpva : parseValue (SRGB kernelsZero) 3 "".toList = some 1 := rfl
  unfold Parse
  rw [hm]
  show (let space := if "srgb" = "xyz" then "xyz-d65" else "srgb";
    match LookupSpace kernelsZero space with
    | none => none
    | some cs =>
      let v0 := (parseValue cs 0 "1.0e999".toList).getD 0
      let v1 := (parseValue cs 1 "0".toList).getD 0
      let v2 := (parseValue cs 2 "0".toList).getD 0
      let v3 := (parseValue cs 3 "".toList).getD 0
      some (Make cs v0 v1 v2 v3)).map (fun (c : Color) => (c.values, c.space.data.id, c.alpha)) =
    some (((0 : ℚ), (0 : ℚ), (0 : ℚ)), "srgb", (1 : ℚ))
  rw [if_neg (show ¬("srgb" = "xyz") from by decide)]
  show (match LookupSpace kernelsZero "srgb" with
    | none => none
    | some cs =>
      let v0 := (parseValue cs 0 "1.0e999".toList).getD 0
      let v1 := (parseValue cs 1 "0".toList).getD 0
      let v2 := (parseValue cs 2 "0".toList).getD 0
      let v3 := (parseValue cs 3 "".toList).getD 0
      some (Make cs v0 v1 v2 v3)).map (fun (c : Color) => (c.values, c.space.data.id, c.alpha)) =
    some (((0 : ℚ), (0 : ℚ), (0 : ℚ)), "srgb", (1 : ℚ))
  rw [show LookupSpace kernelsZero "srgb" = some (SRGB kernelsZero) from rfl]
  show (some (Make (SRGB kernelsZero)
      ((parseValue (SRGB kernelsZero) 0 "1.0e999".toList).getD 0)
      ((parseValue (SRGB kernelsZero) 1 "0".toList).getD 0)
      ((parseValue (SRGB kernelsZero) 2 "0".toList).getD 0)
      ((parseValue (SRGB kernelsZero) 3 "".toList).getD 0))).map
        (fun (c : Color) => (c.values, c.space.data.id, c.alpha)) = _
  rw [hpv0, hpv 1 (by decide), hpv 2 (by decide), hpva]
  show some ((Make (SRGB kernelsZero) 0 0 0 1).values, (SRGB kernelsZero).data.id,
    (Make (SRGB kernelsZero) 0 0 0 1).alpha) = _
  unfold Make
  norm_num [clamp01]
  rfl

/-- C9: a percentage coordinate token is clamped to [0, 100] before it is
mapped through the reference range of its coordinate: parseValue yields
lerp(lo, hi, clamp(f, 0, 100) / 100) for a finite reference range (lo, hi),
so a negative percentage yields exactly lo and a percentage above 100 yields
exactly hi. -/
theorem claim_C9_percentage_clamped (cs : Space) (idx : ℕ) (s : List Char) (f lo hi : ℚ)
    (h3 : idx ≠ 3)
    (hpct : s.getLast? = some '%')
    (hf : goParseFloat s.dropLast = some f)
    (hrng : (coordAt cs idx).refRange = (ERat.fin lo, ERat.fin hi)) :
    parseValue cs idx s =
      some (lerp lo hi ((if f < 0 then 0 else if f > 100 then 100 else f) / 100)) ∧
    (f < 0 → parseValue cs idx s = some lo) ∧
    (f > 100 → parseValue cs idx s = some hi) := by
  have hmain : parseValue cs idx s =
      some (lerp lo hi ((if f < 0 then 0 else if f > 100 then 100 else f) / 100)) := by
    unfold parseValue
    rw [if_neg (fun hc => h3 hc.1), if_pos hpct, hf]
    show (if idx = 3 then some ((if f < 0 then 0 else if f > 100 then 100 else f) / 100)
      else some (lerp (finQ (coordAt cs idx).refRange.1) (finQ (coordAt cs idx).refRange.2)
        ((if f < 0 then 0 else if f > 100 then 100 else f) / 100))) = _
    rw [if_neg h3, hrng]
    rfl
  refine ⟨hmain, ?_, ?_⟩
  · intro hneg
    rw [hmain, if_pos hneg]
    norm_num [lerp]
  · intro hgt
    rw [hmain, if_neg (by linarith : ¬ f < 0), if_pos hgt]
    congr 1
    norm_num [lerp]
theorem goParseFloat_neg50_tok : goParseFloat ['-', '5', '0'] = some (-50) := by
  have hcore : numCore ['-', '5', '0'] = true := by decide
  have hval : decimalVal ['-', '5', '0'] = -1 * ((digitsVal ['5', '0'] : ℚ)) * (10 : ℚ) ^ (0 : ℤ) := rfl
  have hd : (digitsVal ['5', '0'] : ℕ) = 50 := by decide
  rw [hd] at hval
  have hval2 : decimalVal ['-', '5', '0'] = -50 := by rw [hval]; norm_num
  have hno : ¬ (|decimalVal ['-', '5', '0']| ≥ float64Overflow) := by
    rw [hval2, float64Overflow]
    intro h
    rw [abs_of_nonpos (by norm_num)] at h
    norm_num at h
  unfold goParseFloat
  rw [hcore]
  simp only [if_true]
  rw [if_neg hno, hval2]

theorem claim_C9_witness :
    (1 : ℕ) ≠ 3 ∧
    ("-50%".toList.getLast? = some '%') ∧
    goParseFloat "-50%".toList.dropLast = some (-50) ∧
    (coordAt (Lab kernelsZero) 1).refRange = (ERat.fin (-125), ERat.fin 125) ∧
    parseValue (Lab kernelsZero) 1 "-50%".toList = some (-125) := by
  have hrng : (coordAt (Lab kernelsZero) 1).refRange = (ERat.fin (-125), ERat.fin 125) := rfl
  have hf : goParseFloat "-50%".toList.dropLast = some (-50) := goParseFloat_neg50_tok
  exact ⟨by decide, rfl, hf, hrng,
    (claim_C9_percentage_clamped (Lab kernelsZero) 1 "-50%".toList (-50) (-125) 125
      (by decide) rfl hf hrng).2.1 (by norm_num)⟩

/-- C10: converting Oklab to Oklch applies labToLCH with threshold 0.8e-5,
and Lab to LCh applies it with threshold 250e-5.  labToLCH treats the input
as achromatic exactly when both absolute a and absolute b are below the
threshold, in which case chroma and hue are both exactly 0; otherwise chroma
is the Euclidean norm of (a, b) and the hue angle (atan2 in degrees, which
for the real atan2 lies in (-180, 180]) is normalized by the float modulo
into [0, 360). -/
theorem claim_C10_achromatic_threshold (κ : Kernels) :
    (∀ v : Vec3, Space.Convert (Oklab κ) (Oklch κ) v = some (labToLCH κ v (0.8 / 100000))) ∧
    (∀ v : Vec3, Space.Convert (Lab κ) (LCh κ) v = some (labToLCH κ v (250 / 100000))) ∧
    (∀ eps l a b : ℚ, |a| < eps ∧ |b| < eps → labToLCH κ (l, a, b) eps = (l, 0, 0)) ∧
    (∀ eps l a b : ℚ, ¬(|a| < eps ∧ |b| < eps) →
      labToLCH κ (l, a, b) eps =
        (l, κ.sqrt (a * a + b * b), goMod (κ.atan2 b a * 180 / κ.pi + 360) 360)) ∧
    (∀ h_ : ℚ, -180 < h_ → h_ ≤ 180 →
      0 ≤ goMod (h_ + 360) 360 ∧ goMod (h_ + 360) 360 < 360) := by
  refine ⟨fun v => rfl, fun v => rfl, ?_, ?_, ?_⟩
  · intro eps l a b h
    unfold labToLCH
    rw [if_pos h]
  · intro eps l a b h
    unfold labToLCH
    rw [if_neg h]
  · intro h_ h1 h2
    set x := h_ + 360 with hx
    have hx1 : 180 < x := by linarith
    have hx2 : x ≤ 540 := by linarith
    have htr : ratTrunc (x / 360) = ⌊x / 360⌋ := by
      unfold ratTrunc
      rw [if_neg (by push_neg; positivity : ¬ x / 360 < 0)]
    by_cases hc : x < 360
    · have hf : ⌊x / 360⌋ = 0 := by
        rw [Int.floor_eq_zero_iff]
        constructor
        · positivity
        · rw [div_lt_one (by norm_num)]; exact hc
      unfold goMod
      rw [htr, hf]
      norm_num
      constructor <;> linarith
    · push_neg at hc
      have hf : ⌊x / 360⌋ = 1 := by
        rw [Int.floor_eq_iff]
        push_cast
        constructor
        · rw [le_div_iff₀ (by norm_num)]; linarith
        · rw [div_lt_iff₀ (by norm_num)]; linarith
      unfold goMod
      rw [htr, hf]
      push_cast
      constructor <;> linarith

/-- Witness for C10: concrete achromatic and chromatic inputs under the
Oklch threshold, and a concrete in-range hue normalization. -/
theorem claim_C10_witness :
    (|(0 : ℚ)| < 0.8 / 100000 ∧ |(0 : ℚ)| < 0.8 / 100000) ∧
    labToLCH kernelsZero (1 / 2, 0, 0) (0.8 / 100000) = (1 / 2, 0, 0) ∧
    ¬(|(1 : ℚ)| < 0.8 / 100000 ∧ |(0 : ℚ)| < 0.8 / 100000) ∧
    labToLCH kernelsZero (1 / 2, 1, 0) (0.8 / 100000) =
      (1 / 2, kernelsZero.sqrt (1 * 1 + 0 * 0),
        goMod (kernelsZero.atan2 0 1 * 180 / kernelsZero.pi + 360) 360) ∧
    (0 ≤ goMod ((1 / 4 : ℚ) + 360) 360 ∧ goMod ((1 / 4 : ℚ) + 360) 360 < 360) := by
  have hach : |(0 : ℚ)| < 0.8 / 100000 ∧ |(0 : ℚ)| < 0.8 / 100000 := by norm_num
  have hchr : ¬(|(1 : ℚ)| < 0.8 / 100000 ∧ |(0 : ℚ)| < 0.8 / 100000) := by
    intro h
    have := h.1
    norm_num at this
  exact ⟨hach,
    (claim_C10_achromatic_threshold kernelsZero).2.2.1 (0.8 / 100000) (1 / 2) 0 0 hach,
    hchr,
    (claim_C10_achromatic_threshold kernelsZero).2.2.2.1 (0.8 / 100000) (1 / 2) 1 0 hchr,
    (claim_C10_achromatic_threshold kernelsZero).2.2.2.2 (1 / 4) (by norm_num) (by norm_num)⟩

theorem boundedRange_ne_infty (r : ERat × ERat) (h : boundedRange r = true) : r ≠ infty := by
  intro he
  rw [he] at h
  simp [boundedRange, infty] at h

/-- C7: when the destination space is bounded on all three axes and the
working-space (Oklch) lightness of the input is at least 1, GamutMapCSS
returns exactly the destination conversion of the pure white Oklab endpoint
(1, 0, 0) with the input alpha; when the lightness is at most 0, it returns
the conversion of the pure black endpoint (0, 0, 0). -/
theorem claim_C7_extreme_lightness (κ : Kernels) (fuel : ℕ) (c : Color) (toSpace : Space)
    (w : Color)
    (hbound : boundedSpace toSpace = true)
    (hconv : c.Convert (Oklch κ) = some w) :
    (w.values.1 ≥ 1 →
      GamutMapCSS κ fuel c toSpace = (Make (Oklab κ) 1 0 0 c.alpha).Convert toSpace) ∧
    (w.values.1 ≤ 0 →
      GamutMapCSS κ fuel c toSpace = (Make (Oklab κ) 0 0 0 c.alpha).Convert toSpace) := by
  have hb1 : boundedRange toSpace.data.coords.1.range = true := by
    have := hbound
    unfold boundedSpace at this
    exact (Bool.and_eq_true_iff.mp ((Bool.and_eq_true_iff.mp this).1)).1
  have hb2 : boundedRange toSpace.data.coords.2.1.range = true := by
    have := hbound
    unfold boundedSpace at this
    exact (Bool.and_eq_true_iff.mp ((Bool.and_eq_true_iff.mp this).1)).2
  have hnotinfty : ¬(toSpace.data.coords.1.range = infty ∧
      toSpace.data.coords.2.1.range = infty ∧ toSpace.data.coords.2.2.range = infty) := by
    intro hc
    exact boundedRange_ne_infty _ hb1 hc.1
  constructor
  · intro hl
    unfold GamutMapCSS
    rw [if_neg hnotinfty, hconv]
    show (if w.values.1 ≥ 1 then (Make (Oklab κ) 1 0 0 c.alpha).Convert toSpace else _) = _
    rw [if_pos hl]
  · intro hl
    unfold GamutMapCSS
    rw [if_neg hnotinfty, hconv]
    show (if w.values.1 ≥ 1 then (Make (Oklab κ) 1 0 0 c.alpha).Convert toSpace
      else if w.values.1 ≤ 0 then (Make (Oklab κ) 0 0 0 c.alpha).Convert toSpace else _) = _
    rw [if_neg (by linarith : ¬ w.values.1 ≥ 1), if_pos hl]

theorem demoSpace_bounded : boundedSpace demoSpace = true := by
  show boundedRange (ERat.fin 0, ERat.fin 1) && boundedRange (ERat.fin 0, ERat.fin 1) &&
    boundedRange (ERat.fin 0, ERat.fin 1) = true
  unfold boundedRange
  norm_num

/-- Witness for C7: the Oklch color (2, 0, 0) has lightness 2 at or above 1,
the user-built destination space is bounded, and gamut mapping it returns
the converted white Oklab endpoint. -/
theorem claim_C7_witness :
    boundedSpace demoSpace = true ∧
    (hotOklch kernelsZero).Convert (Oklch kernelsZero) = some (hotOklch kernelsZero) ∧
    ((hotOklch kernelsZero).values.1 ≥ 1) ∧
    GamutMapCSS kernelsZero 5 (hotOklch kernelsZero) demoSpace =
      (Make (Oklab kernelsZero) 1 0 0 1).Convert demoSpace := by
  refine ⟨demoSpace_bounded, rfl, by norm_num [hotOklch], ?_⟩
  exact (claim_C7_extreme_lightness kernelsZero 5 (hotOklch kernelsZero) demoSpace
    (hotOklch kernelsZero) demoSpace_bounded rfl).1 (by norm_num [hotOklch])

theorem clip_alpha (t : Space) (cc r : Color) (h : clip t cc = some r) : r.alpha = cc.alpha := by
  unfold clip at h
  cases hc : cc.Convert t with
  | none => rw [hc] at h; cases h
  | some ccc =>
    rw [hc] at h
    cases h
    exact color_convert_alpha cc t ccc hc

theorem convert_alpha_set (c : Color) (sp : Space) (a : ℚ) :
    ({ c with alpha := a } : Color).Convert sp =
      (c.Convert sp).map (fun cc => { cc with alpha := a }) := by
  unfold Color.Convert
  by_cases htag : c.space.data.tag = sp.data.tag
  · rw [if_pos htag, if_pos htag]
    rfl
  · rw [if_neg htag, if_neg htag]
    cases hc : Space.Convert c.space sp c.values <;> rfl

theorem deltaDistance_alpha_set (κ : Kernels) (ref s : Color) (sp : Space) (a1 a2 : ℚ) :
    DeltaDistance κ { ref with alpha := a1 } { s with alpha := a2 } sp =
      DeltaDistance κ ref s sp := by
  have e1 := convert_alpha_set ref sp a1
  have e2 := convert_alpha_set s sp a2
  unfold DeltaDistance
  rw [e1, e2]
  cases hr : ref.Convert sp with
  | none => rfl
  | some rr =>
    cases hs : s.Convert sp with
    | none => rfl
    | some ss => rfl

theorem deltaEOK2_alpha_set (κ : Kernels) (ref s : Color) (a1 a2 : ℚ) :
    DeltaEOK2 κ { ref with alpha := a1 } { s with alpha := a2 } = DeltaEOK2 κ ref s := by
  have e1 := convert_alpha_set ref (Oklab κ) a1
  have e2 := convert_alpha_set s (Oklab κ) a2
  unfold DeltaEOK2
  rw [e1, e2]
  cases hr : ref.Convert (Oklab κ) with
  | none => rfl
  | some rr =>
    cases hs : s.Convert (Oklab κ) with
    | none => rfl
    | some ss => rfl

theorem gmLoop_alpha (κ : Kernels) (t : Space) :
    ∀ (fuel : ℕ) (cur clip0 : Color) (lo hi : ℚ) (mig : Bool) (r : Color) (A : ℚ),
      cur.alpha = A → clip0.alpha = A →
      gmLoop κ t fuel cur clip0 lo hi mig = some r → r.alpha = A := by
  intro fuel
  induction fuel with
  | zero =>
    intro cur clip0 lo hi mig r A hca hcla h
    rw [gmLoop] at h
    by_cases hc : hi - lo > gmEps
    · rw [if_pos hc] at h; cases h
    · rw [if_neg hc] at h; cases h; exact hcla
  | succ n ih =>
    intro cur clip0 lo hi mig r A hca hcla h
    rw [gmLoop] at h
    by_cases hc : hi - lo > gmEps
    · rw [if_pos hc] at h
      dsimp only at h
      have hca' : (setChroma cur ((lo + hi) / 2)).alpha = A := hca
      cases hig : (setChroma cur ((lo + hi) / 2)).InGamutOf t with
      | none => rw [hig] at h; cases h
      | some inG =>
        rw [hig] at h
        dsimp only at h
        by_cases hb1 : mig && inG
        · rw [if_pos hb1] at h
          exact ih _ _ _ _ _ _ _ hca' hcla h
        · rw [if_neg hb1] at h
          by_cases hb2 : !inG
          · rw [if_pos hb2] at h
            cases hclip : clip t (setChroma cur ((lo + hi) / 2)) with
            | none => rw [hclip] at h; cases h
            | some clipped' =>
              rw [hclip] at h
              dsimp only at h
              have hcl' : clipped'.alpha = A := by
                rw [clip_alpha t _ _ hclip]; exact hca'
              cases hd : DeltaEOK κ clipped' (setChroma cur ((lo + hi) / 2)) with
              | none => rw [hd] at h; cases h
              | some e =>
                rw [hd] at h
                dsimp only at h
                by_cases he : e < jnd
                · rw [if_pos he] at h
                  by_cases he2 : jnd - e < gmEps
                  · rw [if_pos he2] at h; cases h; exact hcl'
                  · rw [if_neg he2] at h
                    exact ih _ _ _ _ _ _ _ hca' hcl' h
                · rw [if_neg he] at h
                  exact ih _ _ _ _ _ _ _ hca' hcl' h
          · rw [if_neg hb2] at h
            exact ih _ _ _ _ _ _ _ hca' hcla h
    · rw [if_neg hc] at h; cases h; exact hcla

theorem gamutMapCSS_alpha (κ : Kernels) (fuel : ℕ) (c : Color) (t : Space) (r : Color)
    (h0 : 0 ≤ c.alpha) (h1 : c.alpha ≤ 1)
    (h : GamutMapCSS κ fuel c t = some r) : r.alpha = c.alpha := by
  have hclamp : clamp01 c.alpha = c.alpha := by
    unfold clamp01
    rw [if_neg (by linarith : ¬ c.alpha < 0), if_neg (by linarith : ¬ c.alpha > 1)]
  unfold GamutMapCSS at h
  by_cases hinfty : t.data.coords.1.range = infty ∧ t.data.coords.2.1.range = infty ∧
      t.data.coords.2.2.range = infty
  · rw [if_pos hinfty] at h
    exact color_convert_alpha c t r h
  · rw [if_neg hinfty] at h
    cases hoklch : c.Convert (Oklch κ) with
    | none => rw [hoklch] at h; cases h
    | some cOklch =>
      rw [hoklch] at h
      dsimp only at h
      have halo : cOklch.alpha = c.alpha := color_convert_alpha c _ _ hoklch
      by_cases hl1 : cOklch.values.1 ≥ 1
      · rw [if_pos hl1] at h
        have := color_convert_alpha (Make (Oklab κ) 1 0 0 c.alpha) t r h
        rw [this]
        show clamp01 c.alpha = c.alpha
        exact hclamp
      · rw [if_neg hl1] at h
        by_cases hl0 : cOklch.values.1 ≤ 0
        · rw [if_pos hl0] at h
          have := color_convert_alpha (Make (Oklab κ) 0 0 0 c.alpha) t r h
          rw [this]
          show clamp01 c.alpha = c.alpha
          exact hclamp
        · rw [if_neg hl0] at h
          cases hout : cOklch.Convert t with
          | none => rw [hout] at h; cases h
          | some outc =>
            rw [hout] at h
            dsimp only at h
            by_cases hg : outc.InGamut
            · rw [if_pos hg] at h
              cases h
              rw [color_convert_alpha cOklch t r hout, halo]
            · rw [if_neg hg] at h
              cases hclip : clip t cOklch with
              | none => rw [hclip] at h; cases h
              | some clipped =>
                rw [hclip] at h
                dsimp only at h
                have hcla : clipped.alpha = c.alpha := by
                  rw [clip_alpha t _ _ hclip, halo]
                cases hd : DeltaEOK κ clipped cOklch with
                | none => rw [hd] at h; cases h
                | some e =>
                  rw [hd] at h
                  dsimp only at h
                  by_cases he : e < jnd
                  · rw [if_pos he] at h
                    cases h
                    exact hcla
                  · rw [if_neg he] at h
                    exact gmLoop_alpha κ t fuel cOklch clipped 0 cOklch.values.2.1 true r
                      c.alpha halo hcla h

theorem mapM_option_get (f : ℕ → Option Color) :
    ∀ (xs : List ℕ) (ys : List Color), xs.mapM f = some ys →
      ys.length = xs.length ∧
      ∀ (i : ℕ) (hx : i < xs.length) (hy : i < ys.length),
        f (xs.get ⟨i, hx⟩) = some (ys.get ⟨i, hy⟩) := by
  intro xs
  induction xs with
  | nil =>
    intro ys h
    simp only [List.mapM_nil, pure, Option.some.injEq] at h
    subst h
    exact ⟨rfl, fun i hx => absurd hx (by simp)⟩
  | cons x xs ih =>
    intro ys h
    rw [List.mapM_cons] at h
    cases hfx : f x with
    | none => rw [hfx] at h; cases h
    | some y =>
      rw [hfx] at h
      cases hrest : xs.mapM f with
      | none =>
        rw [hrest] at h
        cases h
      | some ys' =>
        rw [hrest] at h
        simp only [Option.bind_eq_bind, Option.some_bind, pure, Option.some.injEq] at h
        subst h
        obtain ⟨hlen, hget⟩ := ih ys' hrest
        refine ⟨by simp [hlen], ?_⟩
        intro i hx hy
        cases i with
        | zero => exact hfx
        | succ j =>
          exact hget j (by simpa using hx) (by simpa using hy)

/-- C8 statement test. -/
theorem claim_C8_alpha_handling :
    (∀ (sp : Space) (p1 p2 p3 a : ℚ),
      (Make sp p1 p2 p3 a).alpha = clamp01 a ∧ 0 ≤ (Make sp p1 p2 p3 a).alpha ∧
      (Make sp p1 p2 p3 a).alpha ≤ 1 ∧ (0 ≤ a → a ≤ 1 → (Make sp p1 p2 p3 a).alpha = a)) ∧
    (∀ (c : Color) (sp : Space) (c' : Color), c.Convert sp = some c' → c'.alpha = c.alpha) ∧
    (∀ (κ : Kernels) (fuel : ℕ) (c : Color) (t : Space) (r : Color),
      0 ≤ c.alpha → c.alpha ≤ 1 → GamutMapCSS κ fuel c t = some r → r.alpha = c.alpha) ∧
    (∀ (κ : Kernels) (ref s : Color) (sp : Space) (a1 a2 : ℚ),
      DeltaDistance κ { ref with alpha := a1 } { s with alpha := a2 } sp =
        DeltaDistance κ ref s sp) ∧
    (∀ (κ : Kernels) (ref s : Color) (a1 a2 : ℚ),
      DeltaE76 κ { ref with alpha := a1 } { s with alpha := a2 } = DeltaE76 κ ref s ∧
      DeltaEOK κ { ref with alpha := a1 } { s with alpha := a2 } = DeltaEOK κ ref s ∧
      DeltaEOK2 κ { ref with alpha := a1 } { s with alpha := a2 } = DeltaEOK2 κ ref s) ∧
    (∀ (c1 c2 : Color) (inS outS : Space) (num : ℕ) (l : List Color) (c1in c2in : Color),
      c1.Convert inS = some c1in → c2.Convert inS = some c2in →
      Step c1 c2 inS outS num = some l →
      ∀ (i : ℕ) (hy : i < l.length),
        (l.get ⟨i, hy⟩).alpha =
          clamp01 (lerp c1in.alpha c2in.alpha (((i + 1 : ℕ) : ℚ) / (num : ℚ)))) := by
  refine ⟨?_, color_convert_alpha, gamutMapCSS_alpha, deltaDistance_alpha_set, ?_, ?_⟩
  · intro sp p1 p2 p3 a
    refine ⟨rfl, ?_, ?_, ?_⟩
    · show (0 : ℚ) ≤ clamp01 a
      unfold clamp01
      by_cases h0 : a < 0
      · rw [if_pos h0]
      · rw [if_neg h0]
        by_cases h1 : a > 1
        · rw [if_pos h1]; norm_num
        · rw [if_neg h1]; linarith
    · show clamp01 a ≤ 1
      unfold clamp01
      by_cases h0 : a < 0
      · rw [if_pos h0]; norm_num
      · rw [if_neg h0]
        by_cases h1 : a > 1
        · rw [if_pos h1]
        · rw [if_neg h1]; linarith
    · intro ha0 ha1
      show clamp01 a = a
      unfold clamp01
      rw [if_neg (by linarith : ¬ a < 0), if_neg (by linarith : ¬ a > 1)]
  · intro κ ref s a1 a2
    exact ⟨deltaDistance_alpha_set κ ref s (Lab κ) a1 a2,
      deltaDistance_alpha_set κ ref s (Oklab κ) a1 a2,
      deltaEOK2_alpha_set κ ref s a1 a2⟩
  · intro c1 c2 inS outS num l c1in c2in h1 h2 h i hy
    unfold Step at h
    rw [h1, h2] at h
    dsimp only at h
    obtain ⟨hlen, hget⟩ := mapM_option_get _ (List.range num) l h
    have hx : i < (List.range num).length := by
      rw [List.length_range]
      rw [hlen, List.length_range] at hy
      exact hy
    have hgi := hget i hx hy
    rw [List.get_range] at hgi
    cases hconv : (Make inS
        (lerp c1in.values.1 c2in.values.1 (((i + 1 : ℕ) : ℚ) / (num : ℚ)))
        (lerp c1in.values.2.1 c2in.values.2.1 (((i + 1 : ℕ) : ℚ) / (num : ℚ)))
        (lerp c1in.values.2.2 c2in.values.2.2 (((i + 1 : ℕ) : ℚ) / (num : ℚ)))
        (lerp c1in.alpha c2in.alpha (((i + 1 : ℕ) : ℚ) / (num : ℚ)))).Convert outS with
    | none => rw [hconv] at hgi; cases hgi
    | some cc =>
      rw [hconv] at hgi
      cases hgi
      rw [color_convert_alpha _ _ _ hconv]
      rfl

/-- Witness for C8. -/
theorem claim_C8_witness :
    (Make demoSpace 1 2 3 5).alpha = 1 ∧
    (0 : ℚ) ≤ hotOklchHalfAlpha.alpha ∧ hotOklchHalfAlpha.alpha ≤ 1 ∧
    (GamutMapCSS kernelsZero 5 hotOklchHalfAlpha demoSpace).map Color.alpha = some (1 / 2) ∧
    (Step (Make LinearSRGB 0 0 0 0) (Make LinearSRGB 0 0 0 1) LinearSRGB LinearSRGB 2).map
      (fun l => l.map Color.alpha) = some [1 / 2, 1] := by
  have ha0 : (0 : ℚ) ≤ hotOklchHalfAlpha.alpha := by norm_num [hotOklchHalfAlpha]
  have ha1 : hotOklchHalfAlpha.alpha ≤ 1 := by norm_num [hotOklchHalfAlpha]
  have hn : ¬(demoSpace.data.coords.1.range = infty ∧ demoSpace.data.coords.2.1.range = infty ∧
      demoSpace.data.coords.2.2.range = infty) := by
    intro hc
    refine boundedRange_ne_infty _ ?_ hc.1
    show boundedRange (ERat.fin 0, ERat.fin 1) = true
    unfold boundedRange
    norm_num
  have hres : GamutMapCSS kernelsZero 5 hotOklchHalfAlpha demoSpace =
      (Make (Oklab kernelsZero) 1 0 0 hotOklchHalfAlpha.alpha).Convert demoSpace := by
    unfold GamutMapCSS
    rw [if_neg hn]
    rw [show hotOklchHalfAlpha.Convert (Oklch kernelsZero) = some hotOklchHalfAlpha from rfl]
    dsimp only
    rw [if_pos (show hotOklchHalfAlpha.values.1 ≥ 1 by norm_num [hotOklchHalfAlpha])]
  obtain ⟨r, hr⟩ := Option.isSome_iff_exists.mp
    (show ((Make (Oklab kernelsZero) 1 0 0 hotOklchHalfAlpha.alpha).Convert demoSpace).isSome = true
      from rfl)
  have halpha := claim_C8_alpha_handling.2.2.1 kernelsZero 5 hotOklchHalfAlpha demoSpace r
    ha0 ha1 (hres.trans hr)
  refine ⟨?_, ha0, ha1, ?_, ?_⟩
  · rw [(claim_C8_alpha_handling.1 demoSpace 1 2 3 5).1]
    norm_num [clamp01]
  · rw [hres, hr]
    show some r.alpha = some (1 / 2)
    rw [halpha]
    rfl
  · norm_num [Step, Make, Color.Convert, lerp, clamp01, List.range_succ, List.mapM,
      List.mapM.loop]

theorem demo_chroma_const (q : ℚ) : chromaInGamut (midOklch kernelsZero) demoSpace q = true := by
  have hsc : Space.Convert (Oklch kernelsZero) demoSpace ((1 : ℚ)/2, q, 0) =
      some ((Oklab kernelsZero).data.toBase ((Oklch kernelsZero).data.toBase ((1 : ℚ)/2, q, 0))) := rfl
  have htb : (Oklch kernelsZero).data.toBase ((1 : ℚ)/2, q, 0) = ((1 : ℚ)/2, 0, 0) := by
    show ((1 : ℚ)/2, (if q < 0 then 0 else q) * kernelsZero.cos (0 * kernelsZero.pi / 180),
        (if q < 0 then 0 else q) * kernelsZero.sin (0 * kernelsZero.pi / 180)) = ((1 : ℚ)/2, 0, 0)
    show ((1 : ℚ)/2, (if q < 0 then 0 else q) * 0, (if q < 0 then 0 else q) * 0) = ((1 : ℚ)/2, 0, 0)
    simp [mul_zero]
  have htb2 : (Oklab kernelsZero).data.toBase ((1 : ℚ)/2, 0, 0) =
      ((9504559270516719 : ℚ) / 80000000000000000, (4999999999999999 : ℚ) / 40000000000000000,
        (10890577507598783 : ℚ) / 80000000000000000) := by
    show mulVecMat
        (((mulVecMat ((1 : ℚ)/2, 0, 0) oklabLabToLms).1) * ((mulVecMat ((1 : ℚ)/2, 0, 0) oklabLabToLms).1) * ((mulVecMat ((1 : ℚ)/2, 0, 0) oklabLabToLms).1),
          ((mulVecMat ((1 : ℚ)/2, 0, 0) oklabLabToLms).2.1) * ((mulVecMat ((1 : ℚ)/2, 0, 0) oklabLabToLms).2.1) * ((mulVecMat ((1 : ℚ)/2, 0, 0) oklabLabToLms).2.1),
          ((mulVecMat ((1 : ℚ)/2, 0, 0) oklabLabToLms).2.2) * ((mulVecMat ((1 : ℚ)/2, 0, 0) oklabLabToLms).2.2) * ((mulVecMat ((1 : ℚ)/2, 0, 0) oklabLabToLms).2.2))
        oklabLmsToXyz = _
    norm_num [mulVecMat, oklabLabToLms, oklabLmsToXyz]
  have hcv : (setChroma (midOklch kernelsZero) q).Convert demoSpace =
      some { values := ((9504559270516719 : ℚ) / 80000000000000000,
                         (4999999999999999 : ℚ) / 40000000000000000,
                         (10890577507598783 : ℚ) / 80000000000000000),
             space := demoSpace, alpha := 1 } := by
    unfold Color.Convert
    show (if (7 : ℕ) = 100 then some (setChroma (midOklch kernelsZero) q)
        else match Space.Convert (Oklch kernelsZero) demoSpace ((1 : ℚ)/2, q, 0) with
          | none => none
          | some v => some { values := v, space := demoSpace, alpha := (1 : ℚ) }) = _
    rw [if_neg (by decide : ¬ (7 : ℕ) = 100), hsc, htb, htb2]
  unfold chromaInGamut Color.InGamutOf
  rw [hcv]
  simp only [Option.map_some', Option.getD_some]
  unfold Color.InGamut
  show (coordOk (unitCoord "A") ((9504559270516719 : ℚ) / 80000000000000000) &&
      coordOk (unitCoord "B") ((4999999999999999 : ℚ) / 40000000000000000) &&
      coordOk (unitCoord "C") ((10890577507598783 : ℚ) / 80000000000000000)) = true
  unfold coordOk unitCoord ERat.subQ ERat.addQ ERat.leq ERat.geq gamutEps
  norm_num

theorem matchLen_ne_zero_of_head (p q : List SpaceData)
    (hp : p.head?.map SpaceData.tag = some 0) (hq : q.head?.map SpaceData.tag = some 0) :
    matchLen p q ≠ 0 := by
  cases p with
  | nil => cases hp
  | cons a as =>
    cases q with
    | nil => cases hq
    | cons b bs =>
      simp only [List.head?_cons, Option.map_some'] at hp hq
      have : a.tag = b.tag := by
        rw [Option.some.injEq] at hp hq
        rw [hp, hq]
      rw [matchLen, if_pos this]
      exact Nat.succ_ne_zero _

theorem oklch_head (κ : Kernels) : ((Oklch κ).path.head?).map SpaceData.tag = some 0 := rfl

theorem oklab_head (κ : Kernels) : ((Oklab κ).path.head?).map SpaceData.tag = some 0 := rfl

theorem oklch_tag (κ : Kernels) : (Oklch κ).data.tag = 7 := rfl

theorem oklab_tag (κ : Kernels) : (Oklab κ).data.tag = 6 := rfl

theorem convert_some_of_heads (s t : Space) (v : Vec3)
    (hs : (s.path.head?).map SpaceData.tag = some 0)
    (ht : (t.path.head?).map SpaceData.tag = some 0) :
    ∃ w, Space.Convert s t v = some w :=
  convert_isSome_of_matchLen s t v (matchLen_ne_zero_of_head _ _ hs ht)

theorem color_convert_some (cc : Color) (t : Space)
    (htag : cc.space.data.tag ≠ t.data.tag)
    (hs : (cc.space.path.head?).map SpaceData.tag = some 0)
    (ht : (t.path.head?).map SpaceData.tag = some 0) :
    ∃ res, cc.Convert t = some res ∧ res.space = t ∧ res.alpha = cc.alpha := by
  obtain ⟨w, hw⟩ := convert_some_of_heads cc.space t cc.values hs ht
  refine ⟨{ values := w, space := t, alpha := cc.alpha }, ?_, rfl, rfl⟩
  unfold Color.Convert
  rw [if_neg htag, hw]

theorem boundedRange_elim (r : ERat × ERat) (h : boundedRange r = true) :
    ∃ lo hi : ℚ, r = (ERat.fin lo, ERat.fin hi) ∧ lo ≤ hi := by
  rcases r with ⟨r1, r2⟩
  cases r1 <;> cases r2 <;> simp [boundedRange] at h ⊢
  exact ⟨_, _, ⟨rfl, rfl⟩, h⟩

theorem clampGo_mem (f lo hi : ℚ) (h : lo ≤ hi) :
    lo ≤ clampGo f (ERat.fin lo) (ERat.fin hi) ∧ clampGo f (ERat.fin lo) (ERat.fin hi) ≤ hi := by
  unfold clampGo
  show lo ≤ (if decide (f < lo) = true then lo else if decide (f > hi) = true then hi else f) ∧
    (if decide (f < lo) = true then lo else if decide (f > hi) = true then hi else f) ≤ hi
  by_cases h1 : f < lo
  · rw [if_pos (by simpa using h1)]
    exact ⟨le_refl lo, h⟩
  · rw [if_neg (by simpa using h1)]
    by_cases h2 : f > hi
    · rw [if_pos (by simpa using h2)]
      exact ⟨h, le_refl hi⟩
    · rw [if_neg (by simpa using h2)]
      exact ⟨by linarith, by linarith⟩

theorem coordOk_of_mem (co : Coordinate) (v lo hi : ℚ)
    (hr : co.range = (ERat.fin lo, ERat.fin hi)) (h1 : lo ≤ v) (h2 : v ≤ hi) :
    coordOk co v = true := by
  unfold coordOk
  by_cases hang : co.isAngle
  · rw [if_pos hang]
  · rw [if_neg hang, hr]
    show (((ERat.fin lo).subQ gamutEps).leq v && ((ERat.fin hi).addQ gamutEps).geq v) = true
    unfold ERat.subQ ERat.addQ ERat.leq ERat.geq
    rw [Bool.and_eq_true, decide_eq_true_eq, decide_eq_true_eq]
    have hg : (0 : ℚ) ≤ gamutEps := by norm_num [gamutEps]
    exact ⟨by linarith, by linarith⟩

theorem clip_inGamut (κ : Kernels) (t : Space) (cc : Color)
    (hsp : cc.space = Oklch κ)
    (ht7 : t.data.tag ≠ 7)
    (ht : (t.path.head?).map SpaceData.tag = some 0)
    (hb : boundedSpace t = true) :
    ∃ r, clip t cc = some r ∧ r.space = t ∧ r.InGamut = true := by
  have htag : cc.space.data.tag ≠ t.data.tag := by
    rw [hsp, oklch_tag]
    exact fun hc => ht7 hc.symm
  have hshead : (cc.space.path.head?).map SpaceData.tag = some 0 := by
    rw [hsp]; exact oklch_head κ
  obtain ⟨res, hres, hressp, -⟩ := color_convert_some cc t htag hshead ht
  obtain ⟨lo1, hi1, hr1, hle1⟩ := boundedRange_elim _
    (Bool.and_eq_true_iff.mp ((Bool.and_eq_true_iff.mp hb).1)).1
  obtain ⟨lo2, hi2, hr2, hle2⟩ := boundedRange_elim _
    (Bool.and_eq_true_iff.mp ((Bool.and_eq_true_iff.mp hb).1)).2
  obtain ⟨lo3, hi3, hr3, hle3⟩ := boundedRange_elim _ (Bool.and_eq_true_iff.mp hb).2
  have hclip : clip t cc = some { res with values :=
      (clampGo res.values.1 res.space.data.coords.1.range.1 res.space.data.coords.1.range.2,
       clampGo res.values.2.1 res.space.data.coords.2.1.range.1 res.space.data.coords.2.1.range.2,
       clampGo res.values.2.2 res.space.data.coords.2.2.range.1 res.space.data.coords.2.2.range.2) } := by
    unfold clip
    rw [hres]
    rfl
  refine ⟨_, hclip, hressp, ?_⟩
  show Color.InGamut _ = true
  unfold Color.InGamut
  show Space.InGamut res.space
    (clampGo res.values.1 res.space.data.coords.1.range.1 res.space.data.coords.1.range.2,
     clampGo res.values.2.1 res.space.data.coords.2.1.range.1 res.space.data.coords.2.1.range.2,
     clampGo res.values.2.2 res.space.data.coords.2.2.range.1 res.space.data.coords.2.2.range.2) = true
  rw [hressp]
  unfold Space.InGamut
  rw [Bool.and_eq_true, Bool.and_eq_true]
  refine ⟨⟨?_, ?_⟩, ?_⟩
  · rw [hr1]
    exact coordOk_of_mem _ _ lo1 hi1 hr1 (clampGo_mem _ _ _ hle1).1 (clampGo_mem _ _ _ hle1).2
  · rw [hr2]
    exact coordOk_of_mem _ _ lo2 hi2 hr2 (clampGo_mem _ _ _ hle2).1 (clampGo_mem _ _ _ hle2).2
  · rw [hr3]
    exact coordOk_of_mem _ _ lo3 hi3 hr3 (clampGo_mem _ _ _ hle3).1 (clampGo_mem _ _ _ hle3).2

theorem setChroma_space (c : Color) (q : ℚ) : (setChroma c q).space = c.space := rfl

theorem setChroma_setChroma (c : Color) (x q : ℚ) :
    setChroma (setChroma c x) q = setChroma c q := rfl

theorem inGamutOf_eq_chromaInGamut (κ : Kernels) (t : Space) (c : Color) (q : ℚ)
    (hsp : c.space = Oklch κ)
    (ht7 : t.data.tag ≠ 7)
    (ht : (t.path.head?).map SpaceData.tag = some 0) :
    (setChroma c q).InGamutOf t = some (chromaInGamut c t q) := by
  have htag : (setChroma c q).space.data.tag ≠ t.data.tag := by
    rw [setChroma_space, hsp, oklch_tag]
    exact fun hc => ht7 hc.symm
  have hshead : ((setChroma c q).space.path.head?).map SpaceData.tag = some 0 := by
    rw [setChroma_space, hsp]; exact oklch_head κ
  obtain ⟨res, hres, -, -⟩ := color_convert_some (setChroma c q) t htag hshead ht
  unfold chromaInGamut Color.InGamutOf
  rw [hres]
  rfl

theorem deltaEOK_some (κ : Kernels) (t : Space) (r1 r2 : Color)
    (h1 : r1.space = t) (h2 : r2.space = Oklch κ)
    (ht6 : t.data.tag ≠ 6)
    (ht : (t.path.head?).map SpaceData.tag = some 0) :
    ∃ e, DeltaEOK κ r1 r2 = some e := by
  have htag1 : r1.space.data.tag ≠ (Oklab κ).data.tag := by
    rw [h1, oklab_tag]
    exact ht6
  have htag2 : r2.space.data.tag ≠ (Oklab κ).data.tag := by
    rw [h2, oklch_tag, oklab_tag]
    norm_num
  have hh1 : (r1.space.path.head?).map SpaceData.tag = some 0 := by rw [h1]; exact ht
  have hh2 : (r2.space.path.head?).map SpaceData.tag = some 0 := by rw [h2]; exact oklch_head κ
  obtain ⟨a1, ha1, -, -⟩ := color_convert_some r1 (Oklab κ) htag1 hh1 (oklab_head κ)
  obtain ⟨a2, ha2, -, -⟩ := color_convert_some r2 (Oklab κ) htag2 hh2 (oklab_head κ)
  unfold DeltaEOK DeltaDistance
  rw [ha1, ha2]
  exact ⟨_, rfl⟩

theorem gmLoop_terminates_inGamut (κ : Kernels) (t : Space) (c : Color)
    (hsp : c.space = Oklch κ)
    (ht : (t.path.head?).map SpaceData.tag = some 0)
    (ht7 : t.data.tag ≠ 7) (ht6 : t.data.tag ≠ 6)
    (hb : boundedSpace t = true)
    (hmono : ∀ q1 q2 : ℚ, q1 ≤ q2 → chromaInGamut c t q2 = true → chromaInGamut c t q1 = true) :
    ∀ (fuel : ℕ) (x lo hi : ℚ) (mig : Bool) (clip0 : Color),
      hi - lo ≤ gmEps * 2 ^ fuel →
      (mig = false → chromaInGamut c t lo = false) →
      clip0.InGamut = true →
      ∃ r, gmLoop κ t fuel (setChroma c x) clip0 lo hi mig = some r ∧ r.InGamut = true := by
  intro fuel
  induction fuel with
  | zero =>
    intro x lo hi mig clip0 hspan hmig hclip
    rw [gmLoop]
    rw [pow_zero, mul_one] at hspan
    rw [if_neg (by linarith : ¬ hi - lo > gmEps)]
    exact ⟨clip0, rfl, hclip⟩
  | succ n ih =>
    intro x lo hi mig clip0 hspan hmig hclip
    rw [gmLoop]
    by_cases hcond : hi - lo > gmEps
    · rw [if_pos hcond]
      dsimp only
      rw [setChroma_setChroma]
      rw [inGamutOf_eq_chromaInGamut κ t c ((lo + hi) / 2) hsp ht7 ht]
      dsimp only
      have hgm : (0 : ℚ) < gmEps := by norm_num [gmEps]
      have hlope : lo < hi := by linarith
      have hlomid : lo ≤ (lo + hi) / 2 := by linarith
      have hmidhi : (lo + hi) / 2 ≤ hi := by linarith
      have hps : gmEps * 2 ^ (n + 1) = gmEps * 2 ^ n * 2 := by
        rw [pow_succ]; ring
      have hspan2 : hi - (lo + hi) / 2 ≤ gmEps * 2 ^ n := by
        rw [hps] at hspan; linarith
      have hspan2' : (lo + hi) / 2 - lo ≤ gmEps * 2 ^ n := by
        rw [hps] at hspan; linarith
      cases hg : chromaInGamut c t ((lo + hi) / 2) with
      | true =>
        cases mig with
        | true =>
          rw [if_pos (by simp)]
          exact ih ((lo + hi) / 2) ((lo + hi) / 2) hi true clip0 hspan2
            (fun hc => by cases hc) hclip
        | false =>
          exact absurd (hmono lo ((lo + hi) / 2) hlomid hg) (by simp [hmig rfl])
      | false =>
        rw [if_neg (by simp)]
        rw [if_pos (by simp)]
        obtain ⟨r', hclip', hrsp', hrig'⟩ := clip_inGamut κ t (setChroma c ((lo + hi) / 2))
          (by rw [setChroma_space, hsp]) ht7 ht hb
        rw [hclip']
        dsimp only
        obtain ⟨e, he⟩ := deltaEOK_some κ t r' (setChroma c ((lo + hi) / 2)) hrsp'
          (by rw [setChroma_space, hsp]) ht6 ht
        rw [he]
        dsimp only
        by_cases he1 : e < jnd
        · rw [if_pos he1]
          by_cases he2 : jnd - e < gmEps
          · rw [if_pos he2]
            exact ⟨r', rfl, hrig'⟩
          · rw [if_neg he2]
            exact ih ((lo + hi) / 2) ((lo + hi) / 2) hi false r' hspan2 (fun _ => hg) hrig'
        · rw [if_neg he1]
          exact ih ((lo + hi) / 2) lo ((lo + hi) / 2) mig r' hspan2' hmig hrig'
    · rw [if_neg hcond]
      exact ⟨clip0, rfl, hclip⟩

theorem narrowSpace_bounded : boundedSpace (narrowSpace kernelsZero) = true := by
  show boundedRange (ERat.fin 2, ERat.fin 3) && boundedRange (ERat.fin 2, ERat.fin 3) &&
    boundedRange (ERat.fin 2, ERat.fin 3) = true
  unfold boundedRange
  norm_num

/-- Counterexample to C2 as stated: the destination space below is bounded on
all three axes, yet gamut mapping an Oklch color of lightness 2 into it
returns the converted white endpoint, which is not in gamut of the
destination (its ranges are [2, 3] and exclude the white coordinates). -/
theorem claim_C2_counterexample :
    boundedSpace (narrowSpace kernelsZero) = true ∧
    (GamutMapCSS kernelsZero 30 (hotOklch kernelsZero) (narrowSpace kernelsZero)).map
      Color.InGamut = some false := by
  refine ⟨narrowSpace_bounded, ?_⟩
  have hb1 : boundedRange (narrowSpace kernelsZero).data.coords.1.range = true :=
    (Bool.and_eq_true_iff.mp ((Bool.and_eq_true_iff.mp narrowSpace_bounded).1)).1
  have hn : ¬((narrowSpace kernelsZero).data.coords.1.range = infty ∧
      (narrowSpace kernelsZero).data.coords.2.1.range = infty ∧
      (narrowSpace kernelsZero).data.coords.2.2.range = infty) :=
    fun hc => boundedRange_ne_infty _ hb1 hc.1
  have hconv : (hotOklch kernelsZero).Convert (Oklch kernelsZero) =
      some (hotOklch kernelsZero) := rfl
  have hgm : GamutMapCSS kernelsZero 30 (hotOklch kernelsZero) (narrowSpace kernelsZero) =
      (Make (Oklab kernelsZero) 1 0 0 (hotOklch kernelsZero).alpha).Convert
        (narrowSpace kernelsZero) := by
    unfold GamutMapCSS
    rw [if_neg hn, hconv]
    show (if (hotOklch kernelsZero).values.1 ≥ 1 then
        (Make (Oklab kernelsZero) 1 0 0 (hotOklch kernelsZero).alpha).Convert
          (narrowSpace kernelsZero)
      else _) = _
    rw [if_pos (show (hotOklch kernelsZero).values.1 ≥ 1 by norm_num [hotOklch])]
  rw [hgm]
  rw [show (Make (Oklab kernelsZero) 1 0 0 (hotOklch kernelsZero).alpha).Convert
        (narrowSpace kernelsZero) =
      some { values := ((1 : ℚ), 0, 0), space := narrowSpace kernelsZero,
             alpha := clamp01 (hotOklch kernelsZero).alpha } from rfl]
  show some (Color.InGamut { values := ((1 : ℚ), 0, 0), space := narrowSpace kernelsZero,
                             alpha := clamp01 (hotOklch kernelsZero).alpha }) = some false
  congr 1
  show Space.InGamut (narrowSpace kernelsZero) (1, 0, 0) = false
  show (coordOk (shiftCoord "A") 1 && coordOk (shiftCoord "B") 0 &&
    coordOk (shiftCoord "C") 0) = false
  unfold coordOk shiftCoord ERat.subQ ERat.addQ ERat.leq ERat.geq gamutEps
  norm_num

/-- C2: the claim as stated is refuted by the counterexample above; this is
the amended statement.  For an Oklch input whose lightness lies strictly
between 0 and 1, and a destination space that shares the conversion root,
is distinct from Oklch and Oklab, and is bounded with well-ordered ranges,
if in-gamut-ness is monotonically non-increasing in chroma (the assumption
the spec itself inherits from the source algorithm) and the fuel covers the
initial chroma (chroma at most gmEps times 2 to the fuel), then GamutMapCSS
terminates with some result and that result is in gamut of the
destination. -/
theorem claim_C2_amended (κ : Kernels) (fuel : ℕ) (c : Color) (t : Space)
    (hsp : c.space = Oklch κ)
    (ht : (t.path.head?).map SpaceData.tag = some 0)
    (ht7 : t.data.tag ≠ 7) (ht6 : t.data.tag ≠ 6)
    (hb : boundedSpace t = true)
    (hl0 : 0 < c.values.1) (hl1 : c.values.1 < 1)
    (hmono : ∀ q1 q2 : ℚ, q1 ≤ q2 → chromaInGamut c t q2 = true → chromaInGamut c t q1 = true)
    (hfuel : c.values.2.1 ≤ gmEps * 2 ^ fuel) :
    ∃ r, GamutMapCSS κ fuel c t = some r ∧ r.InGamut = true := by
  have hb1 := (Bool.and_eq_true_iff.mp ((Bool.and_eq_true_iff.mp hb).1)).1
  have hn : ¬(t.data.coords.1.range = infty ∧ t.data.coords.2.1.range = infty ∧
      t.data.coords.2.2.range = infty) := fun hc => boundedRange_ne_infty _ hb1 hc.1
  have hcv : c.Convert (Oklch κ) = some c := by
    unfold Color.Convert
    rw [hsp]
    rw [if_pos rfl]
  unfold GamutMapCSS
  rw [if_neg hn, hcv]
  dsimp only
  rw [if_neg (by push_neg; linarith : ¬ c.values.1 ≥ 1)]
  rw [if_neg (by push_neg; linarith : ¬ c.values.1 ≤ 0)]
  have htag : c.space.data.tag ≠ t.data.tag := by
    rw [hsp, oklch_tag]
    exact fun hc => ht7 hc.symm
  obtain ⟨outc, hout, houtsp, -⟩ := color_convert_some c t htag
    (by rw [hsp]; exact oklch_head κ) ht
  rw [hout]
  dsimp only
  by_cases hg : outc.InGamut
  · rw [if_pos hg]
    exact ⟨outc, rfl, hg⟩
  · rw [if_neg hg]
    obtain ⟨cl0, hclip0, hcl0sp, hig0⟩ := clip_inGamut κ t c hsp ht7 ht hb
    rw [hclip0]
    dsimp only
    obtain ⟨e, he⟩ := deltaEOK_some κ t cl0 c hcl0sp hsp ht6 ht
    rw [he]
    dsimp only
    by_cases he1 : e < jnd
    · rw [if_pos he1]
      exact ⟨cl0, rfl, hig0⟩
    · rw [if_neg he1]
      exact gmLoop_terminates_inGamut κ t c hsp ht ht7 ht6 hb hmono fuel
        c.values.2.1 0 c.values.2.1 true cl0 (by simpa using hfuel)
        (fun hc => by cases hc) hig0

/-- Witness for the amended C2: the Oklch color with lightness one half and
chroma 2, mapped into the bounded user-built destination space with fuel 15,
yields a result that is in gamut of the destination. -/
theorem claim_C2_witness :
    (0 : ℚ) < (midOklch kernelsZero).values.1 ∧
    boundedSpace demoSpace = true ∧
    ∃ r, GamutMapCSS kernelsZero 15 (midOklch kernelsZero) demoSpace = some r ∧
      r.InGamut = true :=
  ⟨by norm_num [midOklch], demoSpace_bounded,
    claim_C2_amended kernelsZero 15 (midOklch kernelsZero) demoSpace rfl rfl
      (by decide) (by decide) demoSpace_bounded (by norm_num [midOklch])
      (by norm_num [midOklch]) (fun q1 q2 _ _ => demo_chroma_const q1)
      (by norm_num [midOklch, gmEps])⟩
